import Mathlib

/-!
Verification development for the `inst_ctrl` instrument-control library
(`dmm.py`, `psu.py`, `sig_gen.py`): a shallow embedding of the
command-dialect translation and validation layer, with theorems about
parameter validation, capability gating, connection state, and response
parsing.

Modelling conventions:
* Python floats are modelled as exact rationals (`ℚ`); every numeric
  comparison appearing in the embedded code paths is order-exact for the
  constants involved.
* The external PyVISA transport is abstract.  Each operation takes the
  outcome of its transport calls as an explicit argument (`TOutcome` for a
  write/close, `QOutcome` for a query) and returns the list of transport
  I/O events it performed, so "zero writes" and "exactly one write" are
  literal statements about the returned event list.
* Raised exceptions are modelled as `Except` errors carrying the error
  class (connection / validation / command) of the corresponding Python
  exception type.
-/

/-- Error classes mirroring `SiglentError` / `FlukeError` / `RigolError`
subclasses.  `validationRange` models the ValidationError raised by a
bound check: it carries the parameter name, the offending value and the
active bound pair, which the Python message interpolates.
`pyValueError` models a raw Python `ValueError` escaping uncaught. -/
inductive PyErr where
  | connection (msg : String)
  | validation (msg : String)
  | validationRange (param : String) (value lo hi : ℚ)
  | command (msg : String)
  | pyValueError (msg : String)
  deriving Repr, DecidableEq

/-- Is this error one of the ValidationError classes? -/
def PyErr.isValidation : PyErr → Bool
  | .validation _ => true
  | .validationRange _ _ _ _ => true
  | _ => false

/-- Is this error one of the CommandError classes? -/
def PyErr.isCommand : PyErr → Bool
  | .command _ => true
  | _ => false

/-- Is this error one of the ConnectionError classes? -/
def PyErr.isConnection : PyErr → Bool
  | .connection _ => true
  | _ => false

/-- Transport-level I/O events, in the order the facade performed them. -/
inductive IOEvent where
  | write (cmd : String)
  | query (cmd : String)
  | close
  | openRes (addr : String)
  deriving Repr, DecidableEq

/-- Outcome of a single transport `write`/`close` call: it either returns
or raises a `pyvisa.Error`. -/
inductive TOutcome where
  | ok
  | fault
  deriving Repr, DecidableEq

/-- Outcome of a single transport `query` call: a response string, or a
raised `pyvisa.Error`. -/
inductive QOutcome where
  | resp (s : String)
  | fault
  deriving Repr, DecidableEq

deriving instance DecidableEq for Except

/-- Result of an operation: the Python return value or raised exception,
paired with the transport I/O events performed. -/
def OpResult (α : Type) := Except PyErr α × List IOEvent

instance {α : Type} [DecidableEq α] : DecidableEq (OpResult α) :=
  inferInstanceAs (DecidableEq (Except PyErr α × List IOEvent))

/-- Python `str(float)` as used by f-string interpolation, modelled on
exact rationals: integers render as `<n>.0`, other terminating decimals
render with their fractional digits (up to 30 places; non-terminating
expansions are truncated).  The commands built below interpolate values
through this single function, exactly as the f-strings do. -/
def pyStr (q : ℚ) : String :=
  let sign := if q < 0 then "-" else ""
  let n := q.num.natAbs
  let d := q.den
  let ip := n / d
  let rem := n % d
  if rem = 0 then
    sign ++ toString ip ++ ".0"
  else
    let scaled := rem * (10 ^ 30) / d
    let digits := toString scaled
    let padded := String.mk (List.replicate (30 - digits.length) '0') ++ digits
    let trimmed := String.mk (padded.toList.reverse.dropWhile (· = '0')).reverse
    sign ++ toString ip ++ "." ++ trimmed

/-- `ParameterLimits`: per-quantity inclusive bounds (sig_gen.py). -/
structure ParameterLimits where
  freq_min : ℚ
  freq_max : ℚ
  amp_min : ℚ
  amp_max : ℚ
  offset_min : ℚ
  offset_max : ℚ
  phase_min : ℚ
  phase_max : ℚ
  deriving Repr, DecidableEq

/-- The rational `1e-6` (kernel-computable normal form). -/
def q1em6 : ℚ := ⟨1, 1000000, by decide, Nat.coprime_one_left _⟩

/-- The rational `0.002` (kernel-computable normal form). -/
def q0002 : ℚ := ⟨1, 500, by decide, Nat.coprime_one_left _⟩

/-- The rational `1e-4` (kernel-computable normal form). -/
def q1em4 : ℚ := ⟨1, 10000, by decide, Nat.coprime_one_left _⟩

/-- Factory defaults installed by `ParameterLimits.__init__` and
`reset_to_defaults`. -/
def ParameterLimits.defaults : ParameterLimits :=
  { freq_min := q1em6
    freq_max := 40000000
    amp_min := q0002
    amp_max := 20
    offset_min := -10
    offset_max := 10
    phase_min := 0
    phase_max := 360 }

/-- `reset_to_defaults` restores all eight bounds at once. -/
def ParameterLimits.reset_to_defaults (_ : ParameterLimits) : ParameterLimits :=
  ParameterLimits.defaults

/-- Limits seeded by `PhilipsPM5139.__init__` (defaults, then the six
PM5139-specific assignments; phase bounds stay at factory values). -/
def ParameterLimits.pm5139 : ParameterLimits :=
  { ParameterLimits.defaults with
    freq_min := q1em4
    freq_max := 20000000
    amp_min := 0
    amp_max := 20
    offset_min := -10
    offset_max := 10 }

/-- State of a `SiglentSDG2042X` facade instance: the owned transport
handle (abstract id, `none` when unset), the active-channel selector and
the mutable limits object. -/
structure SigGen where
  instrument : Option Nat
  activeChannel : Nat
  limits : ParameterLimits
  deriving Repr, DecidableEq

/-- Message of `_ensure_connected`-style ConnectionError. -/
def notConnectedErr : PyErr :=
  PyErr.connection "Not connected to instrument. Connect before using properties."

/-- The `C<n>:BSWV <KEY>,<value>` command built by the Siglent numeric
setters. -/
def bswvCmd (ch : Nat) (key : String) (v : ℚ) : String :=
  "C" ++ toString ch ++ ":BSWV " ++ key ++ "," ++ pyStr v

/-- `SiglentSDG2042X.frequency` setter: connection check, then bound
check against `limits.freq_min`/`freq_max`, then a single write of
`C<ch>:BSWV FRQ,<v>`; a write fault becomes a CommandError. -/
def setFrequency (st : SigGen) (v : ℚ) (w : TOutcome) : OpResult Unit :=
  if st.instrument.isNone then (.error notConnectedErr, [])
  else if ¬ (st.limits.freq_min ≤ v ∧ v ≤ st.limits.freq_max) then
    (.error (.validationRange "frequency" v st.limits.freq_min st.limits.freq_max), [])
  else
    match w with
    | .ok => (.ok (), [.write (bswvCmd st.activeChannel "FRQ" v)])
    | .fault => (.error (.command "Failed to set frequency"),
                 [.write (bswvCmd st.activeChannel "FRQ" v)])

/-- `SiglentSDG2042X.amplitude` setter (same shape, `AMP`, amplitude
bounds). -/
def setAmplitude (st : SigGen) (v : ℚ) (w : TOutcome) : OpResult Unit :=
  if st.instrument.isNone then (.error notConnectedErr, [])
  else if ¬ (st.limits.amp_min ≤ v ∧ v ≤ st.limits.amp_max) then
    (.error (.validationRange "amplitude" v st.limits.amp_min st.limits.amp_max), [])
  else
    match w with
    | .ok => (.ok (), [.write (bswvCmd st.activeChannel "AMP" v)])
    | .fault => (.error (.command "Failed to set amplitude"),
                 [.write (bswvCmd st.activeChannel "AMP" v)])

/-- `SiglentSDG2042X.offset` setter (`OFST`, offset bounds). -/
def setOffset (st : SigGen) (v : ℚ) (w : TOutcome) : OpResult Unit :=
  if st.instrument.isNone then (.error notConnectedErr, [])
  else if ¬ (st.limits.offset_min ≤ v ∧ v ≤ st.limits.offset_max) then
    (.error (.validationRange "offset" v st.limits.offset_min st.limits.offset_max), [])
  else
    match w with
    | .ok => (.ok (), [.write (bswvCmd st.activeChannel "OFST" v)])
    | .fault => (.error (.command "Failed to set offset"),
                 [.write (bswvCmd st.activeChannel "OFST" v)])

/-- `SiglentSDG2042X.phase` setter (`PHSE`, phase bounds). -/
def setPhase (st : SigGen) (v : ℚ) (w : TOutcome) : OpResult Unit :=
  if st.instrument.isNone then (.error notConnectedErr, [])
  else if ¬ (st.limits.phase_min ≤ v ∧ v ≤ st.limits.phase_max) then
    (.error (.validationRange "phase" v st.limits.phase_min st.limits.phase_max), [])
  else
    match w with
    | .ok => (.ok (), [.write (bswvCmd st.activeChannel "PHSE" v)])
    | .fault => (.error (.command "Failed to set phase"),
                 [.write (bswvCmd st.activeChannel "PHSE" v)])


/-- Python `str.upper()` restricted to ASCII (all dialect tokens are
ASCII). -/
def pyUpper (s : String) : String := String.mk (s.toList.map Char.toUpper)

/-- Substring occurrence test on character lists. -/
def containsList (hay pat : List Char) : Bool :=
  match hay with
  | [] => pat.isEmpty
  | _ :: rest => pat.isPrefixOf hay || containsList rest pat

/-- Python `pat in s` substring test. -/
def containsSub (s pat : String) : Bool := containsList s.toList pat.toList

/-- Python `str.split(sep)` for a single-character separator. -/
def splitOnChar (sep : Char) : List Char → List (List Char)
  | [] => [[]]
  | c :: rest =>
    let r := splitOnChar sep rest
    if c = sep then [] :: r
    else
      match r with
      | h :: t => (c :: h) :: t
      | [] => [[c]]

/-- Python `str.split(',')` on strings. -/
def splitCommas (s : String) : List String :=
  (splitOnChar ',' s.toList).map String.mk

/-- `SiglentSDG2042X.VALID_WAVEFORMS`. -/
def VALID_WAVEFORMS : List String :=
  ["SINE", "SQUARE", "RAMP", "PULSE", "NOISE", "ARB", "DC", "PRBS", "IQ"]

/-- `PhilipsPM5139.VALID_WAVEFORMS`. -/
def PM5139_VALID_WAVEFORMS : List String :=
  ["SINE", "SQUARE", "RAMP", "PULSE", "ARB", "DC"]

/-- `PhilipsPM5139._WAVEFORM_TO_PM5139` lookup (`dict.get(uv, uv)`). -/
def waveformToPM5139 (uv : String) : String :=
  if uv = "SINE" then "SINE"
  else if uv = "SQUARE" then "SQUARE"
  else if uv = "RAMP" then "TRNGLE"
  else if uv = "PULSE" then "POSPULSE"
  else if uv = "ARB" then "ARB"
  else if uv = "DC" then "DC"
  else uv

/-- The combined `C<n>:BSWV WVTP,..,FRQ,..,AMP,..,OFST,..,PHSE,..`
command built by `SiglentSDG2042X.configure_waveform`. -/
def configureCmd (ch : Nat) (wvtp : String) (freq amp offs phase : ℚ) : String :=
  "C" ++ toString ch ++ ":BSWV WVTP," ++ pyUpper wvtp ++ ",FRQ," ++ pyStr freq ++
    ",AMP," ++ pyStr amp ++ ",OFST," ++ pyStr offs ++ ",PHSE," ++ pyStr phase

/-- `SiglentSDG2042X.configure_waveform`: connection check; waveform type
validated against `VALID_WAVEFORMS`; frequency, amplitude and offset
validated against the limits; then one combined write.  Note the source
performs no bound check on `phase` before interpolating it into the
command. -/
def configureWaveform (st : SigGen) (wvtp : String) (freq amp offs phase : ℚ)
    (w : TOutcome) : OpResult Unit :=
  if st.instrument.isNone then (.error notConnectedErr, [])
  else if ¬ (pyUpper wvtp) ∈ VALID_WAVEFORMS then
    (.error (.validation "Invalid waveform type"), [])
  else if ¬ (st.limits.freq_min ≤ freq ∧ freq ≤ st.limits.freq_max) then
    (.error (.validationRange "frequency" freq st.limits.freq_min st.limits.freq_max), [])
  else if ¬ (st.limits.amp_min ≤ amp ∧ amp ≤ st.limits.amp_max) then
    (.error (.validationRange "amplitude" amp st.limits.amp_min st.limits.amp_max), [])
  else if ¬ (st.limits.offset_min ≤ offs ∧ offs ≤ st.limits.offset_max) then
    (.error (.validationRange "offset" offs st.limits.offset_min st.limits.offset_max), [])
  else
    match w with
    | .ok => (.ok (), [.write (configureCmd st.activeChannel wvtp freq amp offs phase)])
    | .fault => (.error (.command "Failed to configure waveform"),
                 [.write (configureCmd st.activeChannel wvtp freq amp offs phase)])

/-- State of a `PhilipsPM5139` facade instance (single-channel, so no
channel selector; its limits object is mutated at construction to the
PM5139 ranges). -/
structure PM5139 where
  instrument : Option Nat
  limits : ParameterLimits
  deriving Repr, DecidableEq

/-- `PhilipsPM5139.frequency` setter: connection check, bound check, one
`FREQ <v>` write. -/
def pm5139SetFrequency (st : PM5139) (v : ℚ) (w : TOutcome) : OpResult Unit :=
  if st.instrument.isNone then (.error notConnectedErr, [])
  else if ¬ (st.limits.freq_min ≤ v ∧ v ≤ st.limits.freq_max) then
    (.error (.validationRange "frequency" v st.limits.freq_min st.limits.freq_max), [])
  else
    match w with
    | .ok => (.ok (), [.write ("FREQ " ++ pyStr v)])
    | .fault => (.error (.command "Failed to set frequency"), [.write ("FREQ " ++ pyStr v)])

/-- `PhilipsPM5139.amplitude` setter (`AMPLTUDE <v>`). -/
def pm5139SetAmplitude (st : PM5139) (v : ℚ) (w : TOutcome) : OpResult Unit :=
  if st.instrument.isNone then (.error notConnectedErr, [])
  else if ¬ (st.limits.amp_min ≤ v ∧ v ≤ st.limits.amp_max) then
    (.error (.validationRange "amplitude" v st.limits.amp_min st.limits.amp_max), [])
  else
    match w with
    | .ok => (.ok (), [.write ("AMPLTUDE " ++ pyStr v)])
    | .fault => (.error (.command "Failed to set amplitude"), [.write ("AMPLTUDE " ++ pyStr v)])

/-- `PhilipsPM5139.offset` setter (`DCOFFSET <v>`). -/
def pm5139SetOffset (st : PM5139) (v : ℚ) (w : TOutcome) : OpResult Unit :=
  if st.instrument.isNone then (.error notConnectedErr, [])
  else if ¬ (st.limits.offset_min ≤ v ∧ v ≤ st.limits.offset_max) then
    (.error (.validationRange "offset" v st.limits.offset_min st.limits.offset_max), [])
  else
    match w with
    | .ok => (.ok (), [.write ("DCOFFSET " ++ pyStr v)])
    | .fault => (.error (.command "Failed to set offset"), [.write ("DCOFFSET " ++ pyStr v)])

/-- `PhilipsPM5139.phase` getter: returns a fixed `0.0` degrees quantity
with no connection check and no transport I/O (the value, raw unit token
and pint unit label of `_format_quantity(0.0, 'DEG', 'degree')`). -/
def pm5139PhaseGet (_ : PM5139) : OpResult (ℚ × String × String) :=
  (.ok (0, "DEG", "degree"), [])

/-- `PhilipsPM5139.phase` setter: the method body is `pass` — no
validation, no state change, no transport I/O. -/
def pm5139PhaseSet (_ : PM5139) (_ : ℚ) : OpResult Unit :=
  (.ok (), [])

/-- `PhilipsPM5139.get_pulse_width` / `set_pulse_width` /
`get_rise_time` / `set_rise_time` / `get_fall_time` / `set_fall_time`:
each raises a ValidationError naming the unsupported parameter before
any connection check or I/O.  `which` selects the parameter name. -/
def pm5139PulseOp (_ : PM5139) (which : String) : OpResult Unit :=
  (.error (.validation ("PM5139 does not support " ++ which ++ " parameter.")), [])

/-- `PhilipsPM5139.configure_waveform`: connection check; waveform type
against `PM5139_VALID_WAVEFORMS`; frequency, amplitude, offset bound
checks; then the PM5139-specific combined check
`abs(offset) + amp/2 > 10`; then the writes (three for `DC`, one
combined command otherwise).  `phase` is accepted but neither validated
nor transmitted. -/
def pm5139ConfigureWaveform (st : PM5139) (wvtp : String) (freq amp offs _phase : ℚ)
    (w : TOutcome) : OpResult Unit :=
  if st.instrument.isNone then (.error notConnectedErr, [])
  else if ¬ (pyUpper wvtp) ∈ PM5139_VALID_WAVEFORMS then
    (.error (.validation "Invalid waveform type"), [])
  else if ¬ (st.limits.freq_min ≤ freq ∧ freq ≤ st.limits.freq_max) then
    (.error (.validationRange "frequency" freq st.limits.freq_min st.limits.freq_max), [])
  else if ¬ (st.limits.amp_min ≤ amp ∧ amp ≤ st.limits.amp_max) then
    (.error (.validationRange "amplitude" amp st.limits.amp_min st.limits.amp_max), [])
  else if ¬ (st.limits.offset_min ≤ offs ∧ offs ≤ st.limits.offset_max) then
    (.error (.validationRange "offset" offs st.limits.offset_min st.limits.offset_max), [])
  else if |offs| + amp / 2 > 10 then
    (.error (.validation "AC peak + DC offset must not exceed 10 V."), [])
  else if waveformToPM5139 (pyUpper wvtp) = "DC" then
    match w with
    | .ok => (.ok (), [.write "AMPLTUDE 0", .write "DCOFFSET 0", .write "DCON"])
    | .fault => (.error (.command "Failed to configure waveform"), [.write "AMPLTUDE 0"])
  else
    match w with
    | .ok => (.ok (), [.write ("WAVEFORM " ++ waveformToPM5139 (pyUpper wvtp) ++ "; FREQ " ++
        pyStr freq ++ "; AMPLTUDE " ++ pyStr amp ++ "; DCOFFSET " ++ pyStr offs)])
    | .fault => (.error (.command "Failed to configure waveform"),
        [.write ("WAVEFORM " ++ waveformToPM5139 (pyUpper wvtp) ++ "; FREQ " ++
          pyStr freq ++ "; AMPLTUDE " ++ pyStr amp ++ "; DCOFFSET " ++ pyStr offs)])

/-- Python whitespace class (`\s`, `str.strip()` on ASCII text). -/
def isPySpace (c : Char) : Bool :=
  c = ' ' || c = '\t' || c = '\n' || c = '\r' || c = '\x0b' || c = '\x0c'

/-- Python `str.strip()`. -/
def pyTrim (s : String) : String :=
  String.mk (((s.toList.dropWhile isPySpace).reverse.dropWhile isPySpace).reverse)

/-- Character class `[\d.]` of the numeric-token regexes (ASCII). -/
def isDigitOrDot (c : Char) : Bool := c.isDigit || c = '.'

/-- Split an optional leading sign character (`[+-]?`). -/
def splitSign : List Char → List Char × List Char
  | c :: rest => if c = '+' || c = '-' then ([c], rest) else ([], c :: rest)
  | [] => ([], [])

/-- The optional-exponent tail `[+-]?\d+` after an `e`/`E`: the matched
characters and the remainder, or `none` when the digits are missing (the
regex then drops the whole exponent group). -/
def expTail (cs : List Char) : Option (List Char × List Char) :=
  let sg := (splitSign cs).1
  let cs1 := (splitSign cs).2
  let ds := cs1.takeWhile Char.isDigit
  let rest := cs1.dropWhile Char.isDigit
  if ds.isEmpty then none else some (sg ++ ds, rest)

/-- Leading-number munch of `re.match(r'([+-]?[\d.]+(?:[eE][+-]?\d+)?)...', s)`:
the greedy leading numeric token (group 1) and the remainder, or `none`
when the pattern does not match at the start. -/
def numMunch (cs : List Char) : Option (List Char × List Char) :=
  let sg := (splitSign cs).1
  let cs1 := (splitSign cs).2
  let body := cs1.takeWhile isDigitOrDot
  let cs2 := cs1.dropWhile isDigitOrDot
  if body.isEmpty then none
  else
    match cs2 with
    | c :: rest =>
      if c = 'e' || c = 'E' then
        match expTail rest with
        | some (et, rest2) => some (sg ++ body ++ c :: et, rest2)
        | none => some (sg ++ body, cs2)
      else some (sg ++ body, cs2)
    | [] => some (sg ++ body, [])

/-- Value of a digit string (most significant first). -/
def digitsToNat (ds : List Char) : Nat :=
  ds.foldl (fun a c => a * 10 + (c.toNat - 48)) 0

/-- Python `float()` on a sign/digits/dot/exponent literal, as an exact
rational (built with `mkRat`, no floating-point rounding; `inf`/`nan`
and digit-separator underscores are outside the rational model and not
producible by the numeric-token regexes).  Returns `none` exactly when
`float()` raises `ValueError` on such a literal (no digits, a second
dot, a malformed or trailing part). -/
def pyFloatCore (cs : List Char) : Option ℚ :=
  let sg := (splitSign cs).1
  let cs1 := (splitSign cs).2
  let neg := sg = ['-']
  let ip := cs1.takeWhile Char.isDigit
  let cs2 := cs1.dropWhile Char.isDigit
  let fp := match cs2 with
    | '.' :: rest => rest.takeWhile Char.isDigit
    | _ => []
  let cs3 := match cs2 with
    | '.' :: rest => rest.dropWhile Char.isDigit
    | _ => cs2
  if ip.isEmpty && fp.isEmpty then none
  else
    let mant : Int := (if neg then -1 else 1) * (digitsToNat (ip ++ fp) : Int)
    let fden : Nat := 10 ^ fp.length
    match cs3 with
    | [] => some (mkRat mant fden)
    | c :: rest =>
      if c = 'e' || c = 'E' then
        let esg := (splitSign rest).1
        let rest1 := (splitSign rest).2
        let ed := rest1.takeWhile Char.isDigit
        let rest2 := rest1.dropWhile Char.isDigit
        if ed.isEmpty || !rest2.isEmpty then none
        else if esg = ['-'] then some (mkRat mant (fden * 10 ^ digitsToNat ed))
        else some (mkRat (mant * (10 : Int) ^ digitsToNat ed) fden)
      else none

/-- `float()` on a Python string (which strips surrounding whitespace
before parsing). -/
def pyFloat (s : String) : Option ℚ := pyFloatCore (pyTrim s).toList

/-- `SiglentSDG2042X._extract_value_and_unit`: match
`([+-]?[\d.]+(?:[eE][+-]?\d+)?)(.+)?` at the start, convert group 1 with
`float()`, and return group 2 (which `.` stops at a newline; absent
group means empty unit) stripped.  `none` models the raised
`ValueError` (no match, or `float()` failing on the munched token). -/
def extractValueAndUnit (s : String) : Option (ℚ × String) :=
  match numMunch s.toList with
  | none => none
  | some (tok, rest) =>
    match pyFloatCore tok with
    | none => none
    | some v =>
      let unitCs := rest.takeWhile (· ≠ '\n')
      if unitCs.isEmpty then some (v, "")
      else some (v, pyTrim (String.mk unitCs))

/-- Largest index of a non-newline character in a list, if any. -/
def lastNonNlIdx (ws : List Char) : Option Nat :=
  (List.range ws.length).foldl
    (fun acc i => if ws.getD i '\n' ≠ '\n' then some i else acc) none

/-- The group captured after `C\d+:BSWV` by `\s+(.+)` (with Python `.`
not matching a newline and `\s+` backtracking when everything after the
whitespace run is newlines). -/
def bswvGroup (r2 : List Char) : Option (List Char) :=
  let ws := r2.takeWhile isPySpace
  let rest := r2.dropWhile isPySpace
  if ws.isEmpty then none
  else if !rest.isEmpty then some (rest.takeWhile (· ≠ '\n'))
  else
    match lastNonNlIdx ws with
    | some j => if 1 ≤ j then some ((ws.drop j).takeWhile (· ≠ '\n')) else none
    | none => none

/-- `re.match(r'C\d+:BSWV\s+(.+)', response)`: the captured group, or
`none` when the header pattern does not match.  Note the channel digits
are `\d+` — any channel number matches, independent of the facade's
active channel. -/
def bswvHeaderMatch (s : String) : Option (List Char) :=
  match s.toList with
  | 'C' :: rest =>
    let ds := rest.takeWhile Char.isDigit
    let r1 := rest.dropWhile Char.isDigit
    if ds.isEmpty then none
    else
      match r1 with
      | ':' :: 'B' :: 'S' :: 'W' :: 'V' :: r2 => bswvGroup r2
      | _ => none
  | _ => none

/-- Python dict assignment `d[k] = v`: update in place when the key
exists, else append. -/
def dictSet (d : List (String × String)) (k v : String) : List (String × String) :=
  if d.any (fun p => p.1 = k) then d.map (fun p => if p.1 = k then (k, v) else p)
  else d ++ [(k, v)]

/-- Python dict lookup. -/
def dictGet (d : List (String × String)) (k : String) : Option String :=
  (d.find? (fun p => p.1 = k)).map (·.2)

/-- The index-stepping pairing loop of `_parse_parameter_response`:
elements are paired positionally `key,value,key,value,...`, both sides
stripped; a trailing key without a value is dropped. -/
def pairLoop : List String → List (String × String) → List (String × String)
  | [], d => d
  | [_], d => d
  | k :: v :: rest, d => pairLoop rest (dictSet d (pyTrim k) (pyTrim v))

/-- `SiglentSDG2042X._parse_parameter_response`: strip an optional
`C<digits>:BSWV` header (any channel number), split the remainder on
commas, and pair elements positionally into a key-value mapping. -/
def parseParameterResponse (response : String) : List (String × String) :=
  let paramsString :=
    match bswvHeaderMatch response with
    | some g => String.mk g
    | none => response
  pairLoop (splitCommas paramsString) []

/-- Modelled from the spec: the ResponseDecoder key-value strategy as the
spec states it — "strip an optional header token matching the active
channel's query prefix, then split the remainder on commas and pair
elements positionally" — i.e. only a `C<activeChannel>:BSWV` header is
stripped.  Used to compare the spec's wording against
`parseParameterResponse`, which strips any channel's header. -/
def parseParameterResponseSpec (activeChannel : Nat) (response : String) :
    List (String × String) :=
  let hdr := ("C" ++ toString activeChannel ++ ":BSWV").toList
  let cs := response.toList
  let paramsString :=
    if cs.take hdr.length = hdr && !((cs.drop hdr.length).takeWhile isPySpace).isEmpty then
      String.mk ((cs.drop hdr.length).dropWhile isPySpace)
    else response
  pairLoop (splitCommas paramsString) []

/-- `SiglentSDG2042X.frequency` getter: query `C<ch>:BSWV?`, strip the
response, decode it, and read `FRQ`; the value and unit come from
`_extract_value_and_unit` and the pint unit label is chosen by
case-insensitive substring tests `KHZ`/`MHZ` on the unit, defaulting to
hertz.  A missing `FRQ` key is a CommandError embedding the response; an
extraction failure propagates as a raw `ValueError`. -/
def frequencyGet (st : SigGen) (q : QOutcome) : OpResult (ℚ × String × String) :=
  if st.instrument.isNone then (.error notConnectedErr, [])
  else
    let cmd := "C" ++ toString st.activeChannel ++ ":BSWV?"
    match q with
    | .fault => (.error (.command "Failed to query frequency"), [.query cmd])
    | .resp s =>
      let response := pyTrim s
      let params := parseParameterResponse response
      match dictGet params "FRQ" with
      | some fs =>
        match extractValueAndUnit fs with
        | none => (.error (.pyValueError ("Could not extract value and unit from: " ++ fs)),
                   [.query cmd])
        | some (v, u) =>
          if containsSub (pyUpper u) "KHZ" then (.ok (v, u, "kilohertz"), [.query cmd])
          else if containsSub (pyUpper u) "MHZ" then (.ok (v, u, "megahertz"), [.query cmd])
          else (.ok (v, u, "hertz"), [.query cmd])
      | none => (.error (.command ("Could not parse frequency from response: " ++ response)),
                 [.query cmd])


/-- `Func`: primary display measurement functions (dmm.py). -/
inductive Func where
  | VDC | VAC | VACDC | ADC | AAC | OHMS | FREQ | DIODE
  deriving Repr, DecidableEq

/-- Enum value strings (`Func.<name>.value`; names equal values). -/
def Func.str : Func → String
  | .VDC => "VDC" | .VAC => "VAC" | .VACDC => "VACDC" | .ADC => "ADC"
  | .AAC => "AAC" | .OHMS => "OHMS" | .FREQ => "FREQ" | .DIODE => "DIODE"

/-- `Func[name]` lookup used by the Fluke88 string path. -/
def funcOfName (s : String) : Option Func :=
  if s = "VDC" then some .VDC else if s = "VAC" then some .VAC
  else if s = "VACDC" then some .VACDC else if s = "ADC" then some .ADC
  else if s = "AAC" then some .AAC else if s = "OHMS" then some .OHMS
  else if s = "FREQ" then some .FREQ else if s = "DIODE" then some .DIODE
  else none

/-- `Rate`: measurement rate settings. -/
inductive Rate where
  | SLOW | MEDIUM | FAST
  deriving Repr, DecidableEq

/-- `Rate[name]` lookup used by the Fluke88 string path. -/
def rateOfName (s : String) : Option Rate :=
  if s = "SLOW" then some .SLOW else if s = "MEDIUM" then some .MEDIUM
  else if s = "FAST" then some .FAST else none

/-- `Fluke88._FUNCTION_MAP`: `Func` to SCPI token; `VACDC` has no entry. -/
def fluke88FunctionMap : Func → Option String
  | .VDC => some "VOLT:DC"
  | .VAC => some "VOLT:AC"
  | .ADC => some "CURR:DC"
  | .AAC => some "CURR:AC"
  | .OHMS => some "RES"
  | .FREQ => some "FREQ"
  | .DIODE => some "DIOD"
  | .VACDC => none

/-- `Fluke88._RATE_MAP` rendered as the f-string renders it (`0.2` is a
Python float, `1` and `10` are ints, so `str()` yields these exact
tokens). -/
def nplcToken : Rate → String
  | .FAST => "0.2"
  | .MEDIUM => "1"
  | .SLOW => "10"

/-- A `primary_function` / `rate` argument: enum member or string (the
source also rejects other types with a ValidationError; that branch is
represented by passing an invalid string). -/
inductive EnumOrStr (α : Type) where
  | enum (x : α)
  | str (s : String)
  deriving Repr, DecidableEq

/-- State of a `Fluke88` facade: owned handle and the
`_current_function` selector (`none` until a primary function is set). -/
structure Fluke88State where
  instrument : Option Nat
  currentFunction : Option String
  deriving Repr, DecidableEq

/-- `Fluke88.primary_function` setter: connection check; resolve the
argument to a `Func` (string path via `Func[value.upper()]`, KeyError
becoming a ValidationError); reject functions absent from
`_FUNCTION_MAP`; then record `_current_function` BEFORE issuing the
`CONF:` write, so the selector is set even when the write faults. -/
def fluke88PrimaryFunctionSet (st : Fluke88State) (value : EnumOrStr Func)
    (w : TOutcome) : Except PyErr Unit × Fluke88State × List IOEvent :=
  if st.instrument.isNone then (.error notConnectedErr, st, [])
  else
    let fe : Except PyErr Func :=
      match value with
      | .enum f => .ok f
      | .str s =>
        match funcOfName (pyUpper s) with
        | some f => .ok f
        | none => .error (.validation ("Invalid primary function " ++ s))
    match fe with
    | .error e => (.error e, st, [])
    | .ok f =>
      match fluke88FunctionMap f with
      | none => (.error (.validation ("Function " ++ f.str ++
          " not supported on Fluke 8845A/8846A.")), st, [])
      | some scpi =>
        let st2 := { st with currentFunction := some scpi }
        match w with
        | .ok => (.ok (), st2, [.write ("CONF:" ++ scpi)])
        | .fault => (.error (.command ("Failed to configure " ++ scpi)), st2,
                     [.write ("CONF:" ++ scpi)])

/-- `Fluke88.range` setter: connection check; CommandError ("set
function first") when `_current_function` is unset, with no I/O;
otherwise one `<FUNC>:RANG <v>` write. -/
def fluke88RangeSet (st : Fluke88State) (v : ℚ) (w : TOutcome) : OpResult Unit :=
  if st.instrument.isNone then (.error notConnectedErr, [])
  else
    match st.currentFunction with
    | none => (.error (.command "Must set primary_function before configuring range"), [])
    | some f =>
      match w with
      | .ok => (.ok (), [.write (f ++ ":RANG " ++ pyStr v)])
      | .fault => (.error (.command ("Failed to set range to " ++ pyStr v)),
                   [.write (f ++ ":RANG " ++ pyStr v)])

/-- `Fluke88.rate` setter: connection check; CommandError when
`_current_function` is unset (checked before the rate argument is even
validated), with no I/O; then argument resolution (ValidationError on a
bad string/type); then one `<FUNC>:NPLC <n>` write. -/
def fluke88RateSet (st : Fluke88State) (value : EnumOrStr Rate)
    (w : TOutcome) : OpResult Unit :=
  if st.instrument.isNone then (.error notConnectedErr, [])
  else
    match st.currentFunction with
    | none => (.error (.command "Must set primary_function before configuring rate"), [])
    | some f =>
      let re : Except PyErr Rate :=
        match value with
        | .enum r => .ok r
        | .str s =>
          match rateOfName (pyUpper s) with
          | some r => .ok r
          | none => .error (.validation ("Invalid rate " ++ s))
      match re with
      | .error e => (.error e, [])
      | .ok r =>
        match w with
        | .ok => (.ok (), [.write (f ++ ":NPLC " ++ nplcToken r)])
        | .fault => (.error (.command ("Failed to set rate (NPLC=" ++ nplcToken r ++ ")")),
                     [.write (f ++ ":NPLC " ++ nplcToken r)])

/-- `Fluke88.secondary_function` setter: unconditionally a
ValidationError naming the missing capability, before any connection
check or I/O. -/
def fluke88SecondaryFunctionSet (_ : Fluke88State) (_ : EnumOrStr Func) : OpResult Unit :=
  (.error (.validation
    "Fluke 8845A/8846A does not support secondary display.\nUse primary_function only."), [])

/-- `Fluke88.secondary_function` getter: the property body is
`return None` — it does NOT raise (its own docstring claims it always
raises) and performs no I/O. -/
def fluke88SecondaryFunctionGet (_ : Fluke88State) : OpResult Unit :=
  (.ok (), [])

/-- `Fluke88.secondary()`: unconditional ValidationError, no I/O. -/
def fluke88Secondary (_ : Fluke88State) : OpResult Unit :=
  (.error (.validation
    "Fluke 8845A/8846A does not support secondary display.\nUse primary() method only."), [])

/-- `Fluke88.both()`: unconditional ValidationError, no I/O. -/
def fluke88Both (_ : Fluke88State) : OpResult Unit :=
  (.error (.validation
    "Fluke 8845A/8846A does not support dual display.\nUse primary() method only."), [])

/-- `Fluke88.secondary_value` getter: unconditional ValidationError, no
I/O. -/
def fluke88SecondaryValue (_ : Fluke88State) : OpResult Unit :=
  (.error (.validation "Fluke 8845A/8846A does not support secondary display."), [])

/-- State of a `Fluke45` facade: owned handle and the serial-dialect
flag. -/
structure Fluke45State where
  instrument : Option Nat
  isSerial : Bool
  deriving Repr, DecidableEq

/-- `Fluke45.both()`: connection check; fresh-measurement query `MEAS?`;
split the stripped response on commas; exactly two fields are required
(`len(values) != 2` is a CommandError embedding the response); both
fields go through `float()`, a ValueError becoming a CommandError. -/
def fluke45Both (st : Fluke45State) (q : QOutcome) : OpResult (ℚ × ℚ) :=
  if st.instrument.isNone then (.error notConnectedErr, [])
  else
    match q with
    | .fault => (.error (.command "Failed to trigger and read both measurements"),
                 [.query "MEAS?"])
    | .resp s =>
      let values := splitCommas (pyTrim s)
      if values.length ≠ 2 then
        (.error (.command ("Expected two values from MEAS?, got: " ++ s)), [.query "MEAS?"])
      else
        match pyFloat (values.getD 0 ""), pyFloat (values.getD 1 "") with
        | some a, some b => (.ok (a, b), [.query "MEAS?"])
        | _, _ => (.error (.command ("Could not parse measurement values. Response: " ++ s)),
                   [.query "MEAS?"])

/-- `Channel` (psu.py): the three Rigol output channels. -/
inductive RChannel where
  | CH1 | CH2 | CH3
  deriving Repr, DecidableEq

/-- Channel value strings. -/
def RChannel.str : RChannel → String
  | .CH1 => "CH1" | .CH2 => "CH2" | .CH3 => "CH3"

/-- State of a `RigolDP800` facade: owned handle and active channel. -/
structure Rigol where
  instrument : Option Nat
  activeChannel : RChannel
  deriving Repr, DecidableEq

/-- `RigolDP800.measure_all`: connection check; channel defaulting to
the active channel (the argument is modelled post-`_parse_channel`);
fresh `:MEASure:ALL? <ch>` query; the stripped response is split on
commas and accepted whenever it has AT LEAST three fields (`len(values)
>= 3`), the first three being converted with `float()` (ValueError
becoming a CommandError); fewer than three fields is a CommandError. -/
def measureAll (st : Rigol) (channel : Option RChannel) (q : QOutcome) :
    OpResult (ℚ × ℚ × ℚ) :=
  if st.instrument.isNone then (.error notConnectedErr, [])
  else
    let ch := (channel.getD st.activeChannel).str
    let cmd := ":MEASure:ALL? " ++ ch
    match q with
    | .fault => (.error (.command ("Failed to measure all on " ++ ch)), [.query cmd])
    | .resp s =>
      let values := splitCommas (pyTrim s)
      if values.length ≥ 3 then
        match pyFloat (values.getD 0 ""), pyFloat (values.getD 1 ""),
            pyFloat (values.getD 2 "") with
        | some a, some b, some c => (.ok (a, b, c), [.query cmd])
        | _, _, _ =>
          (.error (.command ("Could not parse measurements. Response: " ++ s)), [.query cmd])
      else
        (.error (.command ("Unexpected response format: " ++ s)), [.query cmd])

/-- Outcome of one explicit-address connection attempt: the transport
open faults; the open succeeds (handle `h`) but the `*IDN?` query
faults; or both succeed with identity response `idn`. -/
inductive ConnectOutcome where
  | openFault
  | queryFault (h : Nat)
  | idn (h : Nat) (s : String)
  deriving Repr, DecidableEq

/-- `SiglentSDG2042X.connect` with an explicit `resource_name`:
`self.instrument` is assigned as soon as `open_resource` returns, BEFORE
the `*IDN?` query; an open fault leaves the handle as it was, but a
query fault raises the ConnectionError with the opened handle already
stored.  This path performs no identity check at all: any response is
accepted. -/
def siglentConnectRes (st : SigGen) (addr : String) (o : ConnectOutcome) :
    Except PyErr Unit × SigGen × List IOEvent :=
  match o with
  | .openFault =>
    (.error (.connection ("Could not connect to " ++ addr)), st, [.openRes addr])
  | .queryFault h =>
    (.error (.connection ("Could not connect to " ++ addr)),
     { st with instrument := some h }, [.openRes addr, .query "*IDN?"])
  | .idn h _ =>
    (.ok (), { st with instrument := some h }, [.openRes addr, .query "*IDN?"])

/-- `SiglentSDG2042X.connect` auto-discovery loop (no resource name):
each listed resource is probed; open/query faults are swallowed and the
loop continues; the first identity containing `Siglent` and `SDG` is
accepted and stored; a non-matching probe is closed; exhaustion raises a
ConnectionError with the handle still unset. -/
def siglentDiscover (st : SigGen) : List ConnectOutcome →
    Except PyErr Unit × SigGen × List IOEvent
  | [] => (.error (.connection "No Siglent SDG instrument found."), st, [])
  | o :: rest =>
    match o with
    | .openFault =>
      let r := siglentDiscover st rest
      (r.1, r.2.1, .openRes "probe" :: r.2.2)
    | .queryFault _ =>
      let r := siglentDiscover st rest
      (r.1, r.2.1, .openRes "probe" :: .query "*IDN?" :: r.2.2)
    | .idn h s =>
      if containsSub s "Siglent" && containsSub s "SDG" then
        (.ok (), { st with instrument := some h }, [.openRes "probe", .query "*IDN?"])
      else
        let r := siglentDiscover st rest
        (r.1, r.2.1, .openRes "probe" :: .query "*IDN?" :: .close :: r.2.2)

/-- `Fluke45.connect` with `gpib_address`: the handle is assigned right
after `open_resource`; an identity response lacking `FLUKE`
(case-insensitive) or `45` closes the resource and raises, but
`self.instrument` is left pointing at the closed handle; a query fault
likewise leaves the handle stored. -/
def fluke45ConnectGpib (st : Fluke45State) (addr : String) (o : ConnectOutcome) :
    Except PyErr Unit × Fluke45State × List IOEvent :=
  match o with
  | .openFault =>
    (.error (.connection ("Could not connect to GPIB address " ++ addr)), st, [.openRes addr])
  | .queryFault h =>
    (.error (.connection ("Could not connect to GPIB address " ++ addr)),
     { st with instrument := some h, isSerial := false }, [.openRes addr, .query "*IDN?"])
  | .idn h idn =>
    if containsSub (pyUpper idn) "FLUKE" && containsSub idn "45" then
      (.ok (), { st with instrument := some h, isSerial := false },
       [.openRes addr, .query "*IDN?"])
    else
      (.error (.connection ("Device at GPIB address " ++ addr ++ " is not a Fluke 45.")),
       { st with instrument := some h, isSerial := false },
       [.openRes addr, .query "*IDN?", .close])

/-- `SiglentSDG2042X.disconnect`: close the owned handle if the
attribute is set; a close fault is a ConnectionError; the attribute is
never cleared, so the handle remains stored after a successful
disconnect. -/
def siglentDisconnect (st : SigGen) (c : TOutcome) :
    Except PyErr Unit × SigGen × List IOEvent :=
  match st.instrument with
  | none => (.ok (), st, [])
  | some _ =>
    match c with
    | .ok => (.ok (), st, [.close])
    | .fault => (.error (.connection "Error closing instrument connection"), st, [.close])

/-- `Fluke45.disconnect`: identical shape (attribute never cleared). -/
def fluke45Disconnect (st : Fluke45State) (c : TOutcome) :
    Except PyErr Unit × Fluke45State × List IOEvent :=
  match st.instrument with
  | none => (.ok (), st, [])
  | some _ =>
    match c with
    | .ok => (.ok (), st, [.close])
    | .fault => (.error (.connection "Error closing instrument connection"), st, [.close])

/-- `PhilipsPM5139.disconnect`: close if set, and clear the attribute
after a successful close (`self.instrument = None`); a close fault
raises before the attribute is cleared. -/
def pm5139Disconnect (st : PM5139) (c : TOutcome) :
    Except PyErr Unit × PM5139 × List IOEvent :=
  match st.instrument with
  | none => (.ok (), st, [])
  | some _ =>
    match c with
    | .ok => (.ok (), { st with instrument := none }, [.close])
    | .fault => (.error (.connection "Error closing instrument connection"), st, [.close])

/-- Is the result of an `Except` computation a success? -/
def exOk {α : Type} : Except PyErr α → Bool
  | .ok _ => true
  | .error _ => false

/-- Did the computation raise one of the ValidationError classes? -/
def exValidation {α : Type} : Except PyErr α → Bool
  | .error e => e.isValidation
  | .ok _ => false

/-! Helper lemmas about the list-level scanners. -/

/-- "The next list does not start with a `p`-character": trivially true
for `[]`. -/
def headNot (p : Char → Bool) : List Char → Prop
  | [] => True
  | c :: _ => p c = false

theorem takeWhile_append_all {p : Char → Bool} :
    ∀ (l r : List Char), (∀ c ∈ l, p c = true) → headNot p r →
      (l ++ r).takeWhile p = l := by
  intro l r hl hr
  induction l with
  | nil =>
    cases r with
    | nil => rfl
    | cons c cs =>
      simp only [headNot] at hr
      simp [List.takeWhile, hr]
  | cons c cs ih =>
    have hc : p c = true := hl c (by simp)
    simp only [List.cons_append, List.takeWhile, hc]
    have := ih (fun x hx => hl x (by simp [hx]))
    simp [this]

theorem dropWhile_append_all {p : Char → Bool} :
    ∀ (l r : List Char), (∀ c ∈ l, p c = true) → headNot p r →
      (l ++ r).dropWhile p = r := by
  intro l r hl hr
  induction l with
  | nil =>
    cases r with
    | nil => rfl
    | cons c cs =>
      simp only [headNot] at hr
      simp [List.dropWhile, hr]
  | cons c cs ih =>
    have hc : p c = true := hl c (by simp)
    simp only [List.cons_append, List.dropWhile, hc]
    exact ih (fun x hx => hl x (by simp [hx]))

theorem splitSign_append_parts :
    ∀ cs : List Char, (splitSign cs).1 ++ (splitSign cs).2 = cs := by
  intro cs
  cases cs with
  | nil => rfl
  | cons c rest =>
    by_cases h : c = '+' || c = '-' <;> simp [splitSign, h]

theorem expTail_append {cs et rest : List Char}
    (h : expTail cs = some (et, rest)) : cs = et ++ rest := by
  obtain ⟨sg, cs1, hs⟩ : ∃ a b, splitSign cs = (a, b) := ⟨_, _, rfl⟩
  have hcs : cs = sg ++ cs1 := by
    have h0 := splitSign_append_parts cs
    rw [hs] at h0
    exact h0.symm
  simp only [expTail, hs] at h
  generalize hbd : cs1.takeWhile Char.isDigit = bd at h
  generalize hdr : cs1.dropWhile Char.isDigit = dr at h
  have hcs1 : cs1 = bd ++ dr := by rw [← hbd, ← hdr, List.takeWhile_append_dropWhile]
  split at h
  · exact absurd h (by simp)
  · simp only [Option.some.injEq, Prod.mk.injEq] at h
    obtain ⟨h1, h2⟩ := h
    subst h1 h2
    rw [hcs, hcs1, List.append_assoc]

theorem numMunch_append {cs tok rest : List Char}
    (h : numMunch cs = some (tok, rest)) : cs = tok ++ rest := by
  obtain ⟨sg, cs1, hs⟩ : ∃ a b, splitSign cs = (a, b) := ⟨_, _, rfl⟩
  have hcs : cs = sg ++ cs1 := by
    have h0 := splitSign_append_parts cs
    rw [hs] at h0
    exact h0.symm
  simp only [numMunch, hs] at h
  generalize hbd : cs1.takeWhile isDigitOrDot = bd at h
  generalize hdr : cs1.dropWhile isDigitOrDot = dr at h
  have hcs1 : cs1 = bd ++ dr := by rw [← hbd, ← hdr, List.takeWhile_append_dropWhile]
  split at h
  · exact absurd h (by simp)
  · split at h
    · next c r2 =>
      split at h
      · split at h
        · next et2 rest2 hexp =>
          simp only [Option.some.injEq, Prod.mk.injEq] at h
          obtain ⟨h1, h2⟩ := h
          subst h1 h2
          have h3 := expTail_append hexp
          rw [hcs, hcs1, h3]
          simp [List.append_assoc]
        · simp only [Option.some.injEq, Prod.mk.injEq] at h
          obtain ⟨h1, h2⟩ := h
          subst h1 h2
          rw [hcs, hcs1]
          simp [List.append_assoc]
      · simp only [Option.some.injEq, Prod.mk.injEq] at h
        obtain ⟨h1, h2⟩ := h
        subst h1 h2
        rw [hcs, hcs1]
        simp [List.append_assoc]
    · simp only [Option.some.injEq, Prod.mk.injEq] at h
      obtain ⟨h1, h2⟩ := h
      subst h1 h2
      rw [hcs, hcs1]
      simp

theorem isDigitOrDot_not_sign {c : Char} (h : isDigitOrDot c = true) :
    (c = '+' || c = '-') = false := by
  simp only [Bool.or_eq_false_iff, decide_eq_false_iff_not]
  constructor <;> intro he <;> subst he <;> exact absurd h (by decide)

theorem isDigit_not_sign {c : Char} (h : c.isDigit = true) :
    (c = '+' || c = '-') = false := by
  simp only [Bool.or_eq_false_iff, decide_eq_false_iff_not]
  constructor <;> intro he <;> subst he <;> exact absurd h (by decide)

theorem isDigitOrDot_isDigit_false {c : Char} (h : isDigitOrDot c = false) :
    c.isDigit = false := by
  simp only [isDigitOrDot, Bool.or_eq_false_iff] at h
  exact h.1

theorem expTail_exact (sg2 ds unitL : List Char)
    (hsg : sg2 = [] ∨ sg2 = ['+'] ∨ sg2 = ['-'])
    (hds : ∀ c ∈ ds, c.isDigit = true) (hne : ds ≠ [])
    (hunit : headNot Char.isDigit unitL) :
    expTail (sg2 ++ ds ++ unitL) = some (sg2 ++ ds, unitL) := by
  have hsplit : splitSign (sg2 ++ ds ++ unitL) = (sg2, ds ++ unitL) := by
    rcases hsg with h | h | h <;> subst h
    · cases ds with
      | nil => exact absurd rfl hne
      | cons dc dt =>
        have hdc := hds dc (by simp)
        simp [splitSign, isDigit_not_sign hdc]
    · simp [splitSign]
    · simp [splitSign]
  simp only [expTail, hsplit]
  rw [takeWhile_append_all ds unitL hds hunit, dropWhile_append_all ds unitL hds hunit]
  cases ds with
  | nil => exact absurd rfl hne
  | cons dc dt => simp

theorem numMunch_maximal (sgn body expl unitL : List Char)
    (hsgn : sgn = [] ∨ sgn = ['+'] ∨ sgn = ['-'])
    (hbody : ∀ c ∈ body, isDigitOrDot c = true)
    (hbe : body ≠ [])
    (hexp : expl = [] ∨ ∃ e sg2 ds, (e = 'e' ∨ e = 'E') ∧
      (sg2 = [] ∨ sg2 = ['+'] ∨ sg2 = ['-']) ∧ ds ≠ [] ∧
      (∀ c ∈ ds, c.isDigit = true) ∧ expl = e :: (sg2 ++ ds))
    (hunit : unitL = [] ∨ ∃ u us, unitL = u :: us ∧ isDigitOrDot u = false ∧
      u ≠ 'e' ∧ u ≠ 'E') :
    numMunch (sgn ++ body ++ expl ++ unitL) = some (sgn ++ body ++ expl, unitL) := by
  have htail : headNot Char.isDigit unitL := by
    rcases hunit with h | ⟨u, us, he, hu, _, _⟩
    · subst h; trivial
    · subst he
      exact isDigitOrDot_isDigit_false hu
  have htailDot : headNot isDigitOrDot (expl ++ unitL) := by
    rcases hexp with h | ⟨e, sg2, ds, he, _, _, _, hel⟩
    · subst h
      simp only [List.nil_append]
      rcases hunit with h | ⟨u, us, hu1, hu2, _, _⟩
      · subst h; trivial
      · subst hu1; exact hu2
    · subst hel
      rcases he with h | h <;> subst h <;> simp [headNot, isDigitOrDot]
  have hsplit : splitSign (sgn ++ body ++ expl ++ unitL) =
      (sgn, body ++ (expl ++ unitL)) := by
    rcases hsgn with h | h | h <;> subst h
    · cases body with
      | nil => exact absurd rfl hbe
      | cons bc bt =>
        have hbc := hbody bc (by simp)
        simp [splitSign, isDigitOrDot_not_sign hbc, List.append_assoc]
    · simp [splitSign, List.append_assoc]
    · simp [splitSign, List.append_assoc]
  simp only [numMunch, hsplit]
  rw [takeWhile_append_all body (expl ++ unitL) hbody htailDot,
      dropWhile_append_all body (expl ++ unitL) hbody htailDot]
  have hbne : body.isEmpty = false := by
    cases body
    · exact absurd rfl hbe
    · rfl
  rw [hbne]
  simp only [Bool.false_eq_true, if_false]
  rcases hexp with hel | ⟨e, sg2, ds, he, hsg2, hdsne, hds, hel⟩
  · subst hel
    simp only [List.nil_append, List.append_nil]
    rcases hunit with hu | ⟨u, us, hu1, _, hu3, hu4⟩
    · subst hu; rfl
    · subst hu1
      have : (u = 'e' || u = 'E') = false := by
        simp only [Bool.or_eq_false_iff, decide_eq_false_iff_not]
        exact ⟨hu3, hu4⟩
      simp [this]
  · subst hel
    have hee : (e = 'e' || e = 'E') = true := by
      rcases he with h | h <;> subst h <;> simp
    simp only [List.cons_append, List.append_assoc, hee, if_true]
    rw [← List.append_assoc sg2 ds unitL,
        expTail_exact sg2 ds unitL hsg2 hds hdsne htail]

/-- Claim C9: the value-unit parser (`_extract_value_and_unit`): for
every non-empty input of the form `<num><unit>` — a leading signed
decimal number (optional exponent) followed by an optional free-form
trailing unit suffix (taken at the maximal-munch decomposition: the
suffix does not begin with a digit, a dot, or an exponent marker, is
newline-free, and carries no surrounding whitespace) — it returns the
pair `(num, unit)`, with the unit possibly empty; and for every string
with no leading numeric token (no prefix parses as a float literal) it
fails with a ParseError (modelled as `none`, the raised ValueError). -/
theorem extract_value_and_unit_contract :
    (∀ (sgn body expl unitL : List Char) (v : ℚ),
      (sgn = [] ∨ sgn = ['+'] ∨ sgn = ['-']) →
      (∀ c ∈ body, isDigitOrDot c = true) → body ≠ [] →
      (expl = [] ∨ ∃ e sg2 ds, (e = 'e' ∨ e = 'E') ∧
        (sg2 = [] ∨ sg2 = ['+'] ∨ sg2 = ['-']) ∧ ds ≠ [] ∧
        (∀ c ∈ ds, c.isDigit = true) ∧ expl = e :: (sg2 ++ ds)) →
      (unitL = [] ∨ ∃ u us, unitL = u :: us ∧ isDigitOrDot u = false ∧
        u ≠ 'e' ∧ u ≠ 'E') →
      '\n' ∉ unitL →
      pyTrim (String.mk unitL) = String.mk unitL →
      pyFloatCore (sgn ++ body ++ expl) = some v →
      extractValueAndUnit (String.mk (sgn ++ body ++ expl ++ unitL))
        = some (v, String.mk unitL)) ∧
    (∀ s : String, (∀ n, n ≤ s.length → pyFloatCore (s.toList.take n) = none) →
      extractValueAndUnit s = none) := by
  constructor
  · intro sgn body expl unitL v hsgn hbody hbe hexp hunit hnl htrim hfloat
    have hm : numMunch (String.mk (sgn ++ body ++ expl ++ unitL)).toList
        = some (sgn ++ body ++ expl, unitL) :=
      numMunch_maximal sgn body expl unitL hsgn hbody hbe hexp hunit
    unfold extractValueAndUnit
    rw [hm]
    simp only [hfloat]
    have htw : unitL.takeWhile (· ≠ '\n') = unitL := by
      conv_lhs => rw [show unitL = unitL ++ [] by simp]
      exact takeWhile_append_all unitL []
        (fun c hc => by simp [List.eq_of_mem_replicate]; intro he; exact hnl (he ▸ hc))
        trivial
    rw [htw]
    cases hu : unitL.isEmpty
    · simp only [hu, Bool.false_eq_true, if_false]
      rw [htrim]
    · have : unitL = [] := by
        cases unitL
        · rfl
        · simp at hu
      subst this
      simp
  · intro s hall
    unfold extractValueAndUnit
    cases hm : numMunch s.toList with
    | none => rfl
    | some pr =>
      obtain ⟨tok, rest⟩ := pr
      have hps := numMunch_append hm
      have hlen : tok.length ≤ s.length := by
        have h1 : s.toList.length = s.length := rfl
        rw [hps] at h1
        simp only [List.length_append] at h1
        omega
      have htok : s.toList.take tok.length = tok := by
        rw [hps]
        exact List.take_left _ _
      have hnone := hall tok.length hlen
      rw [htok] at hnone
      simp only [hnone]

/-- Witness for C9: `"1.5KHZ"` parses as `(1.5, "KHZ")`, and `"abc"`
(no leading numeric token at any prefix) fails. -/
theorem extract_value_and_unit_contract_witness :
    extractValueAndUnit (String.mk (['1', '.', '5'] ++ [] ++ "KHZ".toList))
      = some (mkRat 15 10, String.mk "KHZ".toList) ∧
    extractValueAndUnit "abc" = none := by
  constructor
  · exact extract_value_and_unit_contract.1 [] ['1', '.', '5'] [] "KHZ".toList
      (mkRat 15 10) (by decide) (by decide) (by decide) (Or.inl rfl)
      (by exact Or.inr ⟨'K', ['H', 'Z'], by decide, by decide, by decide, by decide⟩)
      (by decide) (by decide) (by decide)
  · exact extract_value_and_unit_contract.2 "abc" (by decide)

/-- Claim C1: for every numeric setter with a configured bound pair
(the Siglent frequency/amplitude/offset/phase setters and the PM5139
frequency/amplitude/offset setters), in a connected session: for every
value within `[min, max]` the setter performs exactly one transport
write whose command string contains the value's formatted text (the
`pyStr` rendering interpolated by the f-string); for every value outside
the bound it fails with a ValidationError carrying the active bound pair
and performs zero transport writes — validation strictly precedes any
I/O. -/
theorem bounded_setters_validate_before_io (st : SigGen) (stp : PM5139) (v : ℚ)
    (w : TOutcome) (hc : st.instrument.isSome) (hcp : stp.instrument.isSome) :
    ((st.limits.freq_min ≤ v ∧ v ≤ st.limits.freq_max →
        (setFrequency st v w).2 = [.write (bswvCmd st.activeChannel "FRQ" v)] ∧
        ∃ a, bswvCmd st.activeChannel "FRQ" v = a ++ pyStr v) ∧
      (¬ (st.limits.freq_min ≤ v ∧ v ≤ st.limits.freq_max) →
        setFrequency st v w =
          (.error (.validationRange "frequency" v st.limits.freq_min st.limits.freq_max), []))) ∧
    ((st.limits.amp_min ≤ v ∧ v ≤ st.limits.amp_max →
        (setAmplitude st v w).2 = [.write (bswvCmd st.activeChannel "AMP" v)] ∧
        ∃ a, bswvCmd st.activeChannel "AMP" v = a ++ pyStr v) ∧
      (¬ (st.limits.amp_min ≤ v ∧ v ≤ st.limits.amp_max) →
        setAmplitude st v w =
          (.error (.validationRange "amplitude" v st.limits.amp_min st.limits.amp_max), []))) ∧
    ((st.limits.offset_min ≤ v ∧ v ≤ st.limits.offset_max →
        (setOffset st v w).2 = [.write (bswvCmd st.activeChannel "OFST" v)] ∧
        ∃ a, bswvCmd st.activeChannel "OFST" v = a ++ pyStr v) ∧
      (¬ (st.limits.offset_min ≤ v ∧ v ≤ st.limits.offset_max) →
        setOffset st v w =
          (.error (.validationRange "offset" v st.limits.offset_min st.limits.offset_max), []))) ∧
    ((st.limits.phase_min ≤ v ∧ v ≤ st.limits.phase_max →
        (setPhase st v w).2 = [.write (bswvCmd st.activeChannel "PHSE" v)] ∧
        ∃ a, bswvCmd st.activeChannel "PHSE" v = a ++ pyStr v) ∧
      (¬ (st.limits.phase_min ≤ v ∧ v ≤ st.limits.phase_max) →
        setPhase st v w =
          (.error (.validationRange "phase" v st.limits.phase_min st.limits.phase_max), []))) ∧
    ((stp.limits.freq_min ≤ v ∧ v ≤ stp.limits.freq_max →
        (pm5139SetFrequency stp v w).2 = [.write ("FREQ " ++ pyStr v)]) ∧
      (¬ (stp.limits.freq_min ≤ v ∧ v ≤ stp.limits.freq_max) →
        pm5139SetFrequency stp v w =
          (.error (.validationRange "frequency" v stp.limits.freq_min stp.limits.freq_max), []))) ∧
    ((stp.limits.amp_min ≤ v ∧ v ≤ stp.limits.amp_max →
        (pm5139SetAmplitude stp v w).2 = [.write ("AMPLTUDE " ++ pyStr v)]) ∧
      (¬ (stp.limits.amp_min ≤ v ∧ v ≤ stp.limits.amp_max) →
        pm5139SetAmplitude stp v w =
          (.error (.validationRange "amplitude" v stp.limits.amp_min stp.limits.amp_max), []))) ∧
    ((stp.limits.offset_min ≤ v ∧ v ≤ stp.limits.offset_max →
        (pm5139SetOffset stp v w).2 = [.write ("DCOFFSET " ++ pyStr v)]) ∧
      (¬ (stp.limits.offset_min ≤ v ∧ v ≤ stp.limits.offset_max) →
        pm5139SetOffset stp v w =
          (.error (.validationRange "offset" v stp.limits.offset_min stp.limits.offset_max), []))) := by
  obtain ⟨h0, hst⟩ : ∃ x, st.instrument = some x := Option.isSome_iff_exists.mp hc
  obtain ⟨h1, hstp⟩ : ∃ x, stp.instrument = some x := Option.isSome_iff_exists.mp hcp
  refine ⟨⟨?_, ?_⟩, ⟨?_, ?_⟩, ⟨?_, ?_⟩, ⟨?_, ?_⟩, ⟨?_, ?_⟩, ⟨?_, ?_⟩, ⟨?_, ?_⟩⟩
  · intro hin
    simp only [setFrequency, hst, Option.isNone_some, Bool.false_eq_true, if_false]
    rw [if_neg (not_not_intro hin)]
    cases w <;> exact ⟨rfl, "C" ++ toString st.activeChannel ++ ":BSWV " ++ "FRQ" ++ ",", rfl⟩
  · intro hout
    simp only [setFrequency, hst, Option.isNone_some, Bool.false_eq_true, if_false]
    rw [if_pos hout]
  · intro hin
    simp only [setAmplitude, hst, Option.isNone_some, Bool.false_eq_true, if_false]
    rw [if_neg (not_not_intro hin)]
    cases w <;> exact ⟨rfl, "C" ++ toString st.activeChannel ++ ":BSWV " ++ "AMP" ++ ",", rfl⟩
  · intro hout
    simp only [setAmplitude, hst, Option.isNone_some, Bool.false_eq_true, if_false]
    rw [if_pos hout]
  · intro hin
    simp only [setOffset, hst, Option.isNone_some, Bool.false_eq_true, if_false]
    rw [if_neg (not_not_intro hin)]
    cases w <;> exact ⟨rfl, "C" ++ toString st.activeChannel ++ ":BSWV " ++ "OFST" ++ ",", rfl⟩
  · intro hout
    simp only [setOffset, hst, Option.isNone_some, Bool.false_eq_true, if_false]
    rw [if_pos hout]
  · intro hin
    simp only [setPhase, hst, Option.isNone_some, Bool.false_eq_true, if_false]
    rw [if_neg (not_not_intro hin)]
    cases w <;> exact ⟨rfl, "C" ++ toString st.activeChannel ++ ":BSWV " ++ "PHSE" ++ ",", rfl⟩
  · intro hout
    simp only [setPhase, hst, Option.isNone_some, Bool.false_eq_true, if_false]
    rw [if_pos hout]
  · intro hin
    simp only [pm5139SetFrequency, hstp, Option.isNone_some, Bool.false_eq_true, if_false]
    rw [if_neg (not_not_intro hin)]
    cases w <;> rfl
  · intro hout
    simp only [pm5139SetFrequency, hstp, Option.isNone_some, Bool.false_eq_true, if_false]
    rw [if_pos hout]
  · intro hin
    simp only [pm5139SetAmplitude, hstp, Option.isNone_some, Bool.false_eq_true, if_false]
    rw [if_neg (not_not_intro hin)]
    cases w <;> rfl
  · intro hout
    simp only [pm5139SetAmplitude, hstp, Option.isNone_some, Bool.false_eq_true, if_false]
    rw [if_pos hout]
  · intro hin
    simp only [pm5139SetOffset, hstp, Option.isNone_some, Bool.false_eq_true, if_false]
    rw [if_neg (not_not_intro hin)]
    cases w <;> rfl
  · intro hout
    simp only [pm5139SetOffset, hstp, Option.isNone_some, Bool.false_eq_true, if_false]
    rw [if_pos hout]

/-- Witness for C1 (Scenarios A and B): frequency 1000 on channel 1 with
factory limits issues the single write `C1:BSWV FRQ,1000.0`; frequency
`-5` fails with a ValidationError carrying the bound pair
`[1e-6, 40e6]` and issues zero writes. -/
theorem bounded_setters_validate_before_io_witness :
    (setFrequency ⟨some 0, 1, ParameterLimits.defaults⟩ 1000 .ok).2
      = [.write (bswvCmd 1 "FRQ" 1000)] ∧
    bswvCmd 1 "FRQ" 1000 = "C1:BSWV FRQ,1000.0" ∧
    setFrequency ⟨some 0, 1, ParameterLimits.defaults⟩ (-5) .ok
      = (.error (.validationRange "frequency" (-5) q1em6 40000000), []) := by
  refine ⟨?_, by decide, ?_⟩
  · exact ((bounded_setters_validate_before_io ⟨some 0, 1, ParameterLimits.defaults⟩
      ⟨some 0, ParameterLimits.pm5139⟩ 1000 .ok rfl rfl).1.1 (by decide)).1
  · exact (bounded_setters_validate_before_io ⟨some 0, 1, ParameterLimits.defaults⟩
      ⟨some 0, ParameterLimits.pm5139⟩ (-5) .ok rfl rfl).1.2 (by decide)

/-- Counterexample to C2: `SiglentSDG2042X.configure_waveform` with
phase `10000` — far outside the configured phase bounds `[0, 360]` —
does NOT fail: it sends the combined command (with `PHSE,10000.0`
included) and succeeds.  The phase sub-parameter is never validated. -/
theorem configure_waveform_phase_unvalidated :
    configureWaveform ⟨some 0, 1, ParameterLimits.defaults⟩ "SINE" 1000 2 0 10000 .ok
      = (.ok (), [.write (configureCmd 1 "SINE" 1000 2 0 10000)]) ∧
    configureCmd 1 "SINE" 1000 2 0 10000
      = "C1:BSWV WVTP,SINE,FRQ,1000.0,AMP,2.0,OFST,0.0,PHSE,10000.0" ∧
    ¬ (ParameterLimits.defaults.phase_min ≤ (10000 : ℚ) ∧
       (10000 : ℚ) ≤ ParameterLimits.defaults.phase_max) := by
  refine ⟨by decide, by decide, by decide⟩

/-- Claim C2 as amended: `configure_waveform` on both variants validates
waveform type, frequency, amplitude and offset (plus, on the PM5139, the
combined AC-peak/DC-offset safety bound) before any transport write, and
on any such validation failure performs zero writes and raises a
ValidationError; when every performed check passes, the Siglent variant
issues exactly one combined command, and the PM5139 variant issues one
combined command for non-DC waveforms (three discrete writes for DC).
Phase is accepted but never validated on either variant (and never
transmitted by the PM5139). -/
theorem configure_waveform_validates_before_io (st : SigGen) (stp : PM5139)
    (wvtp : String) (freq amp offs phase : ℚ) (w : TOutcome)
    (hc : st.instrument.isSome) (hcp : stp.instrument.isSome) :
    ((exValidation (configureWaveform st wvtp freq amp offs phase w).1 = true →
        (configureWaveform st wvtp freq amp offs phase w).2 = []) ∧
      (pyUpper wvtp ∈ VALID_WAVEFORMS →
        st.limits.freq_min ≤ freq ∧ freq ≤ st.limits.freq_max →
        st.limits.amp_min ≤ amp ∧ amp ≤ st.limits.amp_max →
        st.limits.offset_min ≤ offs ∧ offs ≤ st.limits.offset_max →
        (configureWaveform st wvtp freq amp offs phase w).2
          = [.write (configureCmd st.activeChannel wvtp freq amp offs phase)]) ∧
      (¬ (st.limits.offset_min ≤ offs ∧ offs ≤ st.limits.offset_max) →
        pyUpper wvtp ∈ VALID_WAVEFORMS →
        st.limits.freq_min ≤ freq ∧ freq ≤ st.limits.freq_max →
        st.limits.amp_min ≤ amp ∧ amp ≤ st.limits.amp_max →
        configureWaveform st wvtp freq amp offs phase w =
          (.error (.validationRange "offset" offs st.limits.offset_min
            st.limits.offset_max), []))) ∧
    ((exValidation (pm5139ConfigureWaveform stp wvtp freq amp offs phase w).1 = true →
        (pm5139ConfigureWaveform stp wvtp freq amp offs phase w).2 = []) ∧
      (pyUpper wvtp ∈ PM5139_VALID_WAVEFORMS →
        stp.limits.freq_min ≤ freq ∧ freq ≤ stp.limits.freq_max →
        stp.limits.amp_min ≤ amp ∧ amp ≤ stp.limits.amp_max →
        stp.limits.offset_min ≤ offs ∧ offs ≤ stp.limits.offset_max →
        ¬ (|offs| + amp / 2 > 10) →
        waveformToPM5139 (pyUpper wvtp) ≠ "DC" →
        (pm5139ConfigureWaveform stp wvtp freq amp offs phase w).2
          = [.write ("WAVEFORM " ++ waveformToPM5139 (pyUpper wvtp) ++ "; FREQ " ++
              pyStr freq ++ "; AMPLTUDE " ++ pyStr amp ++ "; DCOFFSET " ++ pyStr offs)])) := by
  obtain ⟨h0, hst⟩ : ∃ x, st.instrument = some x := Option.isSome_iff_exists.mp hc
  obtain ⟨h1, hstp⟩ : ∃ x, stp.instrument = some x := Option.isSome_iff_exists.mp hcp
  refine ⟨⟨?_, ?_, ?_⟩, ⟨?_, ?_⟩⟩
  · simp only [configureWaveform, hst, Option.isNone_some, Bool.false_eq_true, if_false]
    split
    · intro _
      rfl
    · split
      · intro _
        rfl
      · split
        · intro _
          rfl
        · split
          · intro _
            rfl
          · cases w <;> intro h <;> simp [exValidation, PyErr.isValidation] at h
  · intro hw hf ha ho
    simp only [configureWaveform, hst, Option.isNone_some, Bool.false_eq_true, if_false]
    rw [if_neg (not_not_intro hw), if_neg (not_not_intro hf), if_neg (not_not_intro ha),
        if_neg (not_not_intro ho)]
    cases w <;> rfl
  · intro hno hw hf ha
    simp only [configureWaveform, hst, Option.isNone_some, Bool.false_eq_true, if_false]
    rw [if_neg (not_not_intro hw), if_neg (not_not_intro hf), if_neg (not_not_intro ha),
        if_pos hno]
  · simp only [pm5139ConfigureWaveform, hstp, Option.isNone_some, Bool.false_eq_true, if_false]
    split
    · intro _
      rfl
    · split
      · intro _
        rfl
      · split
        · intro _
          rfl
        · split
          · intro _
            rfl
          · split
            · intro _
              rfl
            · split
              · cases w <;> intro h <;> simp [exValidation, PyErr.isValidation] at h
              · cases w <;> intro h <;> simp [exValidation, PyErr.isValidation] at h
  · intro hw hf ha ho hcombo hdc
    simp only [pm5139ConfigureWaveform, hstp, Option.isNone_some, Bool.false_eq_true, if_false]
    rw [if_neg (not_not_intro hw), if_neg (not_not_intro hf), if_neg (not_not_intro ha),
        if_neg (not_not_intro ho), if_neg hcombo, if_neg hdc]
    cases w <;> rfl

/-- Witness for amended C2: a fully in-range configuration produces the
single combined write on both variants; an out-of-range offset yields a
ValidationError with zero writes. -/
theorem configure_waveform_validates_before_io_witness :
    (configureWaveform ⟨some 0, 1, ParameterLimits.defaults⟩ "SINE" 1000 2 0 45 .ok).2
      = [.write (configureCmd 1 "SINE" 1000 2 0 45)] ∧
    (pm5139ConfigureWaveform ⟨some 0, ParameterLimits.pm5139⟩ "SINE" 1000 2 0 45 .ok).2
      = [.write ("WAVEFORM " ++ waveformToPM5139 (pyUpper "SINE") ++ "; FREQ " ++
          pyStr 1000 ++ "; AMPLTUDE " ++ pyStr 2 ++ "; DCOFFSET " ++ pyStr 0)] ∧
    configureWaveform ⟨some 0, 1, ParameterLimits.defaults⟩ "SINE" 1000 2 50 0 .ok
      = (.error (.validationRange "offset" 50 (-10) 10), []) := by
  refine ⟨?_, ?_, ?_⟩
  · exact (configure_waveform_validates_before_io ⟨some 0, 1, ParameterLimits.defaults⟩
      ⟨some 0, ParameterLimits.pm5139⟩ "SINE" 1000 2 0 45 .ok rfl rfl).1.2.1
      (by decide) (by decide) (by decide) (by decide)
  · exact (configure_waveform_validates_before_io ⟨some 0, 1, ParameterLimits.defaults⟩
      ⟨some 0, ParameterLimits.pm5139⟩ "SINE" 1000 2 0 45 .ok rfl rfl).2.2
      (by decide) (by decide) (by decide) (by decide) (by simp) (by decide)
  · exact (configure_waveform_validates_before_io ⟨some 0, 1, ParameterLimits.defaults⟩
      ⟨some 0, ParameterLimits.pm5139⟩ "SINE" 1000 2 50 0 .ok rfl rfl).1.2.2
      (by decide) (by decide) (by decide) (by decide)

/-- Counterexample to C3: the phase getter and setter on the phase-less
PM5139 do NOT fail with a ValidationError — the setter is a silent no-op
and the getter returns a fixed 0.0-degree quantity, both with zero
transport I/O. -/
theorem pm5139_phase_is_silent_noop :
    pm5139PhaseSet ⟨some 0, ParameterLimits.pm5139⟩ 720 = (.ok (), []) ∧
    pm5139PhaseGet ⟨some 0, ParameterLimits.pm5139⟩ = (.ok (0, "DEG", "degree"), []) ∧
    exValidation (pm5139PhaseSet ⟨some 0, ParameterLimits.pm5139⟩ 720).1 = false := by
  refine ⟨rfl, rfl, rfl⟩

/-- Claim C3 as amended: the capability-absent operations that raise do
so with a ValidationError naming the missing capability and zero
transport I/O — the Fluke88 secondary-display setter, `secondary()`,
`both()` and `secondary_value`, and the six PM5139 pulse-timing
operations; but the PM5139 phase getter/setter are silent no-ops (the
getter returns a fixed 0.0-degree quantity, the setter does nothing),
and the Fluke88 `secondary_function` getter returns `None` without
raising (contradicting its own docstring) — all also with zero I/O. -/
theorem capability_absent_operations (stF : Fluke88State) (stP : PM5139)
    (vf : EnumOrStr Func) (v : ℚ) (which : String) :
    fluke88SecondaryFunctionSet stF vf = (.error (.validation
      "Fluke 8845A/8846A does not support secondary display.\nUse primary_function only."), []) ∧
    fluke88Secondary stF = (.error (.validation
      "Fluke 8845A/8846A does not support secondary display.\nUse primary() method only."), []) ∧
    fluke88Both stF = (.error (.validation
      "Fluke 8845A/8846A does not support dual display.\nUse primary() method only."), []) ∧
    fluke88SecondaryValue stF = (.error (.validation
      "Fluke 8845A/8846A does not support secondary display."), []) ∧
    pm5139PulseOp stP which = (.error (.validation
      ("PM5139 does not support " ++ which ++ " parameter.")), []) ∧
    pm5139PhaseSet stP v = (.ok (), []) ∧
    pm5139PhaseGet stP = (.ok (0, "DEG", "degree"), []) ∧
    fluke88SecondaryFunctionGet stF = (.ok (), []) := by
  exact ⟨rfl, rfl, rfl, rfl, rfl, rfl, rfl, rfl⟩

/-- Counterexample to C4: a connected session in which the only
primary-function call FAILED (its `CONF:` write faulted, raising a
CommandError), so no successful primary-function set has occurred — yet
the subsequent range call succeeds and issues its write, because the
selector was recorded before the write was attempted. -/
theorem fluke88_range_after_failed_function_set :
    (fluke88PrimaryFunctionSet ⟨some 0, none⟩ (.enum .VDC) .fault).1
      = .error (.command "Failed to configure VOLT:DC") ∧
    fluke88RangeSet (fluke88PrimaryFunctionSet ⟨some 0, none⟩ (.enum .VDC) .fault).2.1
        10 .ok
      = (.ok (), [.write "VOLT:DC:RANG 10.0"]) := by
  exact ⟨rfl, by decide⟩

/-- Claim C4 as amended: on the Fluke88, in a connected session, the
range and rate setters fail with a CommandError ("set function first")
and perform no transport write exactly while the configured-function
selector is unset; once any validation-passing primary-function set has
recorded the selector (successfully written or not), the same range/rate
calls issue their write and succeed. -/
theorem fluke88_range_rate_require_selector (st : Fluke88State) (v : ℚ) (r : Rate)
    (w : TOutcome) (hc : st.instrument.isSome) :
    (st.currentFunction = none →
      fluke88RangeSet st v w
        = (.error (.command "Must set primary_function before configuring range"), []) ∧
      fluke88RateSet st (.enum r) w
        = (.error (.command "Must set primary_function before configuring rate"), [])) ∧
    (∀ f, st.currentFunction = some f →
      fluke88RangeSet st v .ok = (.ok (), [.write (f ++ ":RANG " ++ pyStr v)]) ∧
      fluke88RateSet st (.enum r) .ok = (.ok (), [.write (f ++ ":NPLC " ++ nplcToken r)])) := by
  obtain ⟨h0, hst⟩ : ∃ x, st.instrument = some x := Option.isSome_iff_exists.mp hc
  constructor
  · intro hcf
    constructor
    · simp [fluke88RangeSet, hst, hcf]
    · simp [fluke88RateSet, hst, hcf]
  · intro f hcf
    constructor
    · simp [fluke88RangeSet, hst, hcf]
    · simp [fluke88RateSet, hst, hcf]

/-- Witness for amended C4: with no selector, range and rate fail with
zero writes; with the selector recorded as `VOLT:DC`, both succeed with
one write. -/
theorem fluke88_range_rate_require_selector_witness :
    fluke88RangeSet ⟨some 0, none⟩ 10 .ok
      = (.error (.command "Must set primary_function before configuring range"), []) ∧
    fluke88RangeSet ⟨some 0, some "VOLT:DC"⟩ 10 .ok
      = (.ok (), [.write ("VOLT:DC" ++ ":RANG " ++ pyStr 10)]) ∧
    fluke88RateSet ⟨some 0, some "VOLT:DC"⟩ (.enum .FAST) .ok
      = (.ok (), [.write ("VOLT:DC" ++ ":NPLC " ++ nplcToken .FAST)]) := by
  refine ⟨?_, ?_, ?_⟩
  · exact ((fluke88_range_rate_require_selector ⟨some 0, none⟩ 10 .FAST .ok rfl).1 rfl).1
  · exact ((fluke88_range_rate_require_selector ⟨some 0, some "VOLT:DC"⟩ 10 .FAST .ok
      rfl).2 "VOLT:DC" rfl).1
  · exact ((fluke88_range_rate_require_selector ⟨some 0, some "VOLT:DC"⟩ 10 .FAST .ok
      rfl).2 "VOLT:DC" rfl).2

/-- Claim C10: the Fluke88 primary-function setter records the mapped
SCPI token as the configured-function selector BEFORE issuing the
`CONF:` write, so even when the write faults (the setter raises a
CommandError), the facade has entered the configured-function sub-state
and a subsequent range call issues its write and succeeds. -/
theorem fluke88_selector_recorded_before_write (st : Fluke88State) (f : Func)
    (scpi : String) (w : TOutcome) (v : ℚ) (hc : st.instrument.isSome)
    (hm : fluke88FunctionMap f = some scpi) :
    (fluke88PrimaryFunctionSet st (.enum f) w).2.1.currentFunction = some scpi ∧
    (fluke88PrimaryFunctionSet st (.enum f) w).2.2 = [.write ("CONF:" ++ scpi)] ∧
    (w = .fault → (fluke88PrimaryFunctionSet st (.enum f) w).1
      = .error (.command ("Failed to configure " ++ scpi))) ∧
    fluke88RangeSet (fluke88PrimaryFunctionSet st (.enum f) w).2.1 v .ok
      = (.ok (), [.write (scpi ++ ":RANG " ++ pyStr v)]) := by
  obtain ⟨h0, hst⟩ : ∃ x, st.instrument = some x := Option.isSome_iff_exists.mp hc
  cases w
  · have hred : fluke88PrimaryFunctionSet st (.enum f) .ok =
        (.ok (), { st with currentFunction := some scpi }, [.write ("CONF:" ++ scpi)]) := by
      simp [fluke88PrimaryFunctionSet, hst, hm]
    rw [hred]
    refine ⟨rfl, rfl, ?_, ?_⟩
    · intro hw
      exact absurd hw (by decide)
    · simp [fluke88RangeSet, hst]
  · have hred : fluke88PrimaryFunctionSet st (.enum f) .fault =
        (.error (.command ("Failed to configure " ++ scpi)),
         { st with currentFunction := some scpi }, [.write ("CONF:" ++ scpi)]) := by
      simp [fluke88PrimaryFunctionSet, hst, hm]
    rw [hred]
    refine ⟨rfl, rfl, ?_, ?_⟩
    · intro hw
      rfl
    · simp [fluke88RangeSet, hst]

/-- Witness for C10: function `VDC` with a faulting write still records
`VOLT:DC`; the subsequent range call writes `VOLT:DC:RANG 10.0`. -/
theorem fluke88_selector_recorded_before_write_witness :
    (fluke88PrimaryFunctionSet ⟨some 0, none⟩ (.enum .VDC) .fault).2.1.currentFunction
      = some "VOLT:DC" ∧
    fluke88RangeSet (fluke88PrimaryFunctionSet ⟨some 0, none⟩ (.enum .VDC) .fault).2.1 10 .ok
      = (.ok (), [.write ("VOLT:DC" ++ ":RANG " ++ pyStr 10)]) := by
  have h := fluke88_selector_recorded_before_write ⟨some 0, none⟩ .VDC "VOLT:DC" .fault 10
    rfl rfl
  exact ⟨h.1, h.2.2.2⟩

/-- Counterexample to C5: failing connects CAN leave the owned handle
set.  A Siglent explicit-resource connect whose open succeeds but whose
identity query faults raises a ConnectionError with the opened handle
already stored — so a subsequent setter does NOT fail with a
use-before-connect ConnectionError; likewise a Fluke45 GPIB connect
whose identity response mismatches closes the resource but leaves the
attribute pointing at it. -/
theorem failed_connect_leaves_handle_set :
    exOk (siglentConnectRes ⟨none, 1, ParameterLimits.defaults⟩ "USB0::INSTR"
      (.queryFault 7)).1 = false ∧
    (siglentConnectRes ⟨none, 1, ParameterLimits.defaults⟩ "USB0::INSTR"
      (.queryFault 7)).2.1.instrument = some 7 ∧
    (setFrequency (siglentConnectRes ⟨none, 1, ParameterLimits.defaults⟩ "USB0::INSTR"
      (.queryFault 7)).2.1 1000 .ok).1 = .ok () ∧
    exOk (fluke45ConnectGpib ⟨none, false⟩ "3" (.idn 9 "ACME,TM1000")).1 = false ∧
    (fluke45ConnectGpib ⟨none, false⟩ "3" (.idn 9 "ACME,TM1000")).2.1.instrument
      = some 9 := by
  exact ⟨rfl, rfl, by decide, by decide, by decide⟩

/-- Claim C5 as amended: a transport-open fault leaves the facade state
(and its unset handle) unchanged, and an exhausted auto-discovery loop
leaves the state unchanged; but in the explicit-address paths, once the
open has succeeded, a faulting identity query (Siglent, Fluke45) or a
mismatching identity response (Fluke45) raises the ConnectionError with
the opened handle already stored, so the facade does not remain in the
Disconnected state.  A failed disconnect leaves the handle as it was. -/
theorem connect_failure_handle_state (st : SigGen) (stf : Fluke45State) (addr : String)
    (h : Nat) (idn : String) (os : List ConnectOutcome) :
    ((siglentConnectRes st addr .openFault).1
        = .error (.connection ("Could not connect to " ++ addr)) ∧
      (siglentConnectRes st addr .openFault).2.1 = st) ∧
    (exOk (siglentConnectRes st addr (.queryFault h)).1 = false ∧
      (siglentConnectRes st addr (.queryFault h)).2.1.instrument = some h) ∧
    (exOk (fluke45ConnectGpib stf addr (.queryFault h)).1 = false ∧
      (fluke45ConnectGpib stf addr (.queryFault h)).2.1.instrument = some h) ∧
    (¬ (containsSub (pyUpper idn) "FLUKE" = true ∧ containsSub idn "45" = true) →
      exOk (fluke45ConnectGpib stf addr (.idn h idn)).1 = false ∧
      (fluke45ConnectGpib stf addr (.idn h idn)).2.1.instrument = some h) ∧
    (exOk (siglentDiscover st os).1 = false → (siglentDiscover st os).2.1 = st) ∧
    ((siglentDisconnect st .fault).2.1 = st ∧ (fluke45Disconnect stf .fault).2.1 = stf) := by
  refine ⟨⟨rfl, rfl⟩, ⟨rfl, rfl⟩, ⟨rfl, rfl⟩, ?_, ?_, ?_, ?_⟩
  · intro hmis
    have hb : (containsSub (pyUpper idn) "FLUKE" && containsSub idn "45") = false := by
      rcases h1 : containsSub (pyUpper idn) "FLUKE" <;>
        rcases h2 : containsSub idn "45" <;> simp_all
    simp [fluke45ConnectGpib, hb, exOk]
  · induction os with
    | nil => intro _; rfl
    | cons o rest ih =>
      cases o with
      | openFault =>
        intro hf
        simp only [siglentDiscover] at hf ⊢
        exact ih hf
      | queryFault hh =>
        intro hf
        simp only [siglentDiscover] at hf ⊢
        exact ih hf
      | idn hh ss =>
        intro hf
        simp only [siglentDiscover] at hf ⊢
        by_cases hm : (containsSub ss "Siglent" && containsSub ss "SDG") = true
        · rw [if_pos hm] at hf
          simp [exOk] at hf
        · rw [if_neg hm] at hf ⊢
          exact ih hf
  · rcases hi : st.instrument with _ | x <;> simp [siglentDisconnect, hi]
  · rcases hi : stf.instrument with _ | x <;> simp [fluke45Disconnect, hi]

/-- Witness for amended C5: concrete instantiation — open-fault leaves a
fresh facade disconnected; a mismatching Fluke45 identity leaves the
handle stored; an exhausted two-probe discovery leaves the state
unchanged. -/
theorem connect_failure_handle_state_witness :
    (siglentConnectRes ⟨none, 1, ParameterLimits.defaults⟩ "A" .openFault).2.1
      = ⟨none, 1, ParameterLimits.defaults⟩ ∧
    (fluke45ConnectGpib ⟨none, false⟩ "3" (.idn 9 "ACME,TM1000")).2.1.instrument
      = some 9 ∧
    (siglentDiscover ⟨none, 1, ParameterLimits.defaults⟩ [.openFault, .queryFault 4]).2.1
      = ⟨none, 1, ParameterLimits.defaults⟩ := by
  have h := connect_failure_handle_state ⟨none, 1, ParameterLimits.defaults⟩ ⟨none, false⟩
    "A" 9 "ACME,TM1000" [.openFault, .queryFault 4]
  exact ⟨h.1.2, (h.2.2.2.1 (by decide)).2, h.2.2.2.2.1 (by decide)⟩

/-- Claim C6: disconnect is idempotent.  After a successful disconnect a
second disconnect succeeds again (Siglent, Fluke45 — whose handle
attribute is never cleared — and PM5139, which clears it); a disconnect
raises a ConnectionError only when the handle is set AND the underlying
transport close faults, never merely because the connection is already
closed. -/
theorem disconnect_idempotent (stS : SigGen) (stF : Fluke45State) (stP : PM5139)
    (c : TOutcome) :
    (exOk (siglentDisconnect stS .ok).1 = true ∧
      exOk (siglentDisconnect (siglentDisconnect stS .ok).2.1 .ok).1 = true) ∧
    (exOk (fluke45Disconnect stF .ok).1 = true ∧
      exOk (fluke45Disconnect (fluke45Disconnect stF .ok).2.1 .ok).1 = true) ∧
    (exOk (pm5139Disconnect stP .ok).1 = true ∧
      exOk (pm5139Disconnect (pm5139Disconnect stP .ok).2.1 c).1 = true) ∧
    (exOk (siglentDisconnect stS c).1 = false → stS.instrument.isSome = true ∧ c = .fault) ∧
    (exOk (fluke45Disconnect stF c).1 = false → stF.instrument.isSome = true ∧ c = .fault) := by
  refine ⟨?_, ?_, ?_, ?_, ?_⟩
  · rcases hi : stS.instrument with _ | x <;> simp [siglentDisconnect, hi, exOk]
  · rcases hi : stF.instrument with _ | x <;> simp [fluke45Disconnect, hi, exOk]
  · rcases hi : stP.instrument with _ | x <;>
      cases c <;> simp [pm5139Disconnect, hi, exOk]
  · intro hf
    rcases hi : stS.instrument with _ | x <;> cases c <;>
      simp [siglentDisconnect, hi, exOk] at hf <;> simp [hi]
  · intro hf
    rcases hi : stF.instrument with _ | x <;> cases c <;>
      simp [fluke45Disconnect, hi, exOk] at hf <;> simp [hi]

/-- Witness for C6: double disconnect on a connected Siglent facade
succeeds both times; a failing disconnect there implies the handle was
set and the close faulted. -/
theorem disconnect_idempotent_witness :
    exOk (siglentDisconnect ⟨some 3, 1, ParameterLimits.defaults⟩ .ok).1 = true ∧
    exOk (siglentDisconnect
      (siglentDisconnect ⟨some 3, 1, ParameterLimits.defaults⟩ .ok).2.1 .ok).1 = true ∧
    ((⟨some 3, 1, ParameterLimits.defaults⟩ : SigGen).instrument.isSome = true ∧
      TOutcome.fault = .fault) := by
  have h := disconnect_idempotent ⟨some 3, 1, ParameterLimits.defaults⟩ ⟨some 3, false⟩
    ⟨some 3, ParameterLimits.pm5139⟩ .fault
  exact ⟨h.1.1, h.1.2, h.2.2.2.1 (by decide)⟩

/-- Counterexample to C7: `RigolDP800.measure_all` accepts responses
with MORE than its fixed arity of three — `"1.0,2.0,3.0,4.0"` (four
fields) is silently truncated to `(1, 2, 3)` instead of raising a
CommandError. -/
theorem measure_all_truncates_extra_fields :
    measureAll ⟨some 0, .CH1⟩ none (.resp "1.0,2.0,3.0,4.0")
      = (.ok (1, 2, 3), [.query ":MEASure:ALL? CH1"]) ∧
    (splitCommas (pyTrim "1.0,2.0,3.0,4.0")).length = 4 := by
  exact ⟨by decide, by decide⟩

/-- Claim C7 as amended: `Fluke45.both` enforces its fixed arity of two
exactly (any other field count raises a CommandError embedding the
response, and two parseable fields yield the float pair);
`RigolDP800.measure_all` raises a CommandError only when the response
has FEWER than three fields — with three or more parseable fields it
returns the first three, silently discarding any extras. -/
theorem measurement_arity_contract (st45 : Fluke45State) (stR : Rigol) (s : String)
    (hc : st45.instrument.isSome) (hcR : stR.instrument.isSome) :
    ((splitCommas (pyTrim s)).length ≠ 2 →
      fluke45Both st45 (.resp s)
        = (.error (.command ("Expected two values from MEAS?, got: " ++ s)),
           [.query "MEAS?"])) ∧
    (∀ a b, (splitCommas (pyTrim s)).length = 2 →
      pyFloat ((splitCommas (pyTrim s)).getD 0 "") = some a →
      pyFloat ((splitCommas (pyTrim s)).getD 1 "") = some b →
      fluke45Both st45 (.resp s) = (.ok (a, b), [.query "MEAS?"])) ∧
    ((splitCommas (pyTrim s)).length < 3 →
      measureAll stR none (.resp s)
        = (.error (.command ("Unexpected response format: " ++ s)),
           [.query (":MEASure:ALL? " ++ stR.activeChannel.str)])) ∧
    (∀ a b c, (splitCommas (pyTrim s)).length ≥ 3 →
      pyFloat ((splitCommas (pyTrim s)).getD 0 "") = some a →
      pyFloat ((splitCommas (pyTrim s)).getD 1 "") = some b →
      pyFloat ((splitCommas (pyTrim s)).getD 2 "") = some c →
      measureAll stR none (.resp s)
        = (.ok (a, b, c), [.query (":MEASure:ALL? " ++ stR.activeChannel.str)])) := by
  obtain ⟨h0, hst⟩ : ∃ x, st45.instrument = some x := Option.isSome_iff_exists.mp hc
  obtain ⟨h1, hstR⟩ : ∃ x, stR.instrument = some x := Option.isSome_iff_exists.mp hcR
  refine ⟨?_, ?_, ?_, ?_⟩
  · intro hlen
    simp only [fluke45Both, hst, Option.isNone_some, Bool.false_eq_true, if_false]
    rw [if_pos hlen]
  · intro a b hlen ha hb
    simp only [fluke45Both, hst, Option.isNone_some, Bool.false_eq_true, if_false]
    rw [if_neg (not_not_intro hlen), ha, hb]
  · intro hlen
    simp only [measureAll, hstR, Option.isNone_some, Bool.false_eq_true, if_false,
      Option.getD_none]
    rw [if_neg (by omega)]
  · intro a b c hlen ha hb hcc
    simp only [measureAll, hstR, Option.isNone_some, Bool.false_eq_true, if_false,
      Option.getD_none]
    rw [if_pos hlen, ha, hb, hcc]

/-- Witness for amended C7: the response `"1.5,2.5"` parses to the pair
`(1.5, 2.5)` on the Fluke45; a one-field response raises the arity
CommandError; a two-field response on the Rigol raises the
fewer-than-three CommandError. -/
theorem measurement_arity_contract_witness :
    fluke45Both ⟨some 0, false⟩ (.resp "1.5,2.5")
      = (.ok (mkRat 15 10, mkRat 25 10), [.query "MEAS?"]) ∧
    fluke45Both ⟨some 0, false⟩ (.resp "9")
      = (.error (.command ("Expected two values from MEAS?, got: " ++ "9")),
         [.query "MEAS?"]) ∧
    measureAll ⟨some 0, .CH1⟩ none (.resp "1.0,2.0")
      = (.error (.command ("Unexpected response format: " ++ "1.0,2.0")),
         [.query (":MEASure:ALL? " ++ RChannel.CH1.str)]) := by
  refine ⟨?_, ?_, ?_⟩
  · exact (measurement_arity_contract ⟨some 0, false⟩ ⟨some 0, .CH1⟩ "1.5,2.5"
      rfl rfl).2.1 (mkRat 15 10) (mkRat 25 10) (by decide) (by decide) (by decide)
  · exact (measurement_arity_contract ⟨some 0, false⟩ ⟨some 0, .CH1⟩ "9" rfl rfl).1
      (by decide)
  · exact (measurement_arity_contract ⟨some 0, false⟩ ⟨some 0, .CH1⟩ "1.0,2.0"
      rfl rfl).2.2.1 (by decide)

theorem pairLoop_drop_odd : ∀ (xs : List String) (d : List (String × String)),
    xs.length % 2 = 1 → pairLoop xs d = pairLoop xs.dropLast d
  | [], _, h => by simp at h
  | [_], _, _ => by simp [pairLoop]
  | x :: y :: rest, d, h => by
    have hr : rest.length % 2 = 1 := by
      simp only [List.length_cons] at h
      omega
    obtain ⟨r, rt, hre⟩ : ∃ r rt, rest = r :: rt := by
      cases rest with
      | nil => simp at hr
      | cons r rt => exact ⟨r, rt, rfl⟩
    subst hre
    simp only [pairLoop, List.dropLast]
    exact pairLoop_drop_odd (r :: rt) _ hr

/-- The header matcher accepts `C<digits>:BSWV<space><rest>` for ANY
digit run (any channel number), capturing `rest` when it is nonempty,
newline-free and does not start with whitespace. -/
theorem bswvHeaderMatch_any_channel (ds : List Char) (rc : Char) (rt : List Char)
    (hds : ∀ c ∈ ds, c.isDigit = true) (hdsne : ds ≠ [])
    (hrc : isPySpace rc = false) (hnl : ∀ c ∈ rc :: rt, c ≠ '\n') :
    bswvHeaderMatch
        (String.mk ('C' :: (ds ++ (':' :: 'B' :: 'S' :: 'W' :: 'V' :: ' ' :: rc :: rt))))
      = some (rc :: rt) := by
  have hmid : headNot Char.isDigit (':' :: 'B' :: 'S' :: 'W' :: 'V' :: ' ' :: rc :: rt) := by
    show Char.isDigit ':' = false
    decide
  have hself : (rc :: rt).takeWhile (· ≠ '\n') = rc :: rt := by
    conv_lhs => rw [show rc :: rt = (rc :: rt) ++ [] by simp]
    exact takeWhile_append_all _ [] (fun c hc => by simpa using hnl c hc) trivial
  have hbne : ds.isEmpty = false := by
    cases ds
    · exact absurd rfl hdsne
    · rfl
  simp only [bswvHeaderMatch, String.toList]
  rw [takeWhile_append_all ds _ hds hmid, dropWhile_append_all ds _ hds hmid, hbne]
  simp only [Bool.false_eq_true, if_false]
  show bswvGroup (' ' :: rc :: rt) = some (rc :: rt)
  have hsp : isPySpace ' ' = true := by decide
  have h1 : (' ' :: rc :: rt).takeWhile isPySpace = [' '] := by
    simp [List.takeWhile_cons, hsp, hrc]
  have h2 : (' ' :: rc :: rt).dropWhile isPySpace = rc :: rt := by
    simp [List.dropWhile_cons, hsp, hrc]
  simp only [bswvGroup, h1, h2]
  simp [hself]
  exact ⟨hnl rc (by simp), fun a ha => hnl a (by simp [ha])⟩

/-- Counterexample to C8: the key-value decoder strips a header for ANY
channel number, not only "the active channel's query prefix" — with
active channel 1, the response `"C2:BSWV FRQ,5"` still has its `C2`
header stripped, where a decoder following the spec's wording would
leave it in place. -/
theorem header_strip_ignores_active_channel :
    parseParameterResponse "C2:BSWV FRQ,5" = [("FRQ", "5")] ∧
    parseParameterResponseSpec 1 "C2:BSWV FRQ,5" = [("C2:BSWV FRQ", "5")] ∧
    parseParameterResponse "C2:BSWV FRQ,5" ≠ parseParameterResponseSpec 1 "C2:BSWV FRQ,5" := by
  exact ⟨by decide, by decide, by decide⟩

/-- Claim C8 as amended: the key-value decoder strips an optional header
matching ANY channel's `BSWV` query prefix (`C<digits>:BSWV`,
independent of the facade's active channel), splits the remainder on
commas, and pairs elements positionally into a key-value mapping,
dropping an odd trailing key; it returns the empty mapping on empty
input; the response `"C1:BSWV WVTP,SINE,FRQ,1KHZ,AMP,2V"` decodes to
`{WVTP: SINE, FRQ: 1KHZ, AMP: 2V}`, and the frequency getter on that
response returns value 1.0 with the unit classified as kilohertz. -/
theorem parse_parameter_response_contract :
    (∀ (ds : List Char) (rc : Char) (rt : List Char),
      (∀ c ∈ ds, c.isDigit = true) → ds ≠ [] → isPySpace rc = false →
      (∀ c ∈ rc :: rt, c ≠ '\n') →
      parseParameterResponse
          (String.mk ('C' :: (ds ++ (':' :: 'B' :: 'S' :: 'W' :: 'V' :: ' ' :: rc :: rt))))
        = pairLoop (splitCommas (String.mk (rc :: rt))) []) ∧
    parseParameterResponse "" = [] ∧
    (∀ (xs : List String) (d : List (String × String)), xs.length % 2 = 1 →
      pairLoop xs d = pairLoop xs.dropLast d) ∧
    parseParameterResponse "C1:BSWV WVTP,SINE,FRQ,1KHZ,AMP,2V"
      = [("WVTP", "SINE"), ("FRQ", "1KHZ"), ("AMP", "2V")] ∧
    frequencyGet ⟨some 0, 1, ParameterLimits.defaults⟩
        (.resp "C1:BSWV WVTP,SINE,FRQ,1KHZ,AMP,2V")
      = (.ok (1, "KHZ", "kilohertz"), [.query "C1:BSWV?"]) := by
  refine ⟨?_, by decide, pairLoop_drop_odd, by decide, by decide⟩
  intro ds rc rt hds hdsne hrc hnl
  unfold parseParameterResponse
  rw [bswvHeaderMatch_any_channel ds rc rt hds hdsne hrc hnl]

/-- Witness for amended C8: the general header-strip at a concrete
channel `42`, and a concrete odd-length list whose trailing key is
dropped. -/
theorem parse_parameter_response_contract_witness :
    parseParameterResponse (String.mk ('C' :: (['4', '2'] ++
        (':' :: 'B' :: 'S' :: 'W' :: 'V' :: ' ' :: 'F' :: "RQ,5".toList))))
      = pairLoop (splitCommas (String.mk ('F' :: "RQ,5".toList))) [] ∧
    pairLoop ["A", "1", "B"] [] = pairLoop (["A", "1", "B"].dropLast) [] := by
  constructor
  · exact parse_parameter_response_contract.1 ['4', '2'] 'F' "RQ,5".toList
      (by decide) (by decide) (by decide) (by decide)
  · exact parse_parameter_response_contract.2.2.1 ["A", "1", "B"] [] (by decide)
